import Mathlib

/-!
Verification development for the SAT narrow-phase collision core
(`src/collision/narrowphase/SAT/SATAlgorithm.cpp`).

The engine scalar (`decimal`, a build-time float) is embedded as `ℚ` so that
every definition is executable and every comparison decidable.  The single
floating-point operation with no rational counterpart — the square root used
to normalize a vector — is threaded through the affected definitions as an
explicit parameter `sq : ℚ → ℚ` standing for the platform routine; no theorem
below depends on the values `sq` returns.  External collaborators that the
source file consumes (half-edge mesh accessors, support functions, clipping
and closest-point helpers, transform algebra) are not part of the source file
and are modelled from the specification; they are marked as such.
-/

namespace SATSpec

/-- The engine scalar type (`decimal` in the source, a float selected at build
time), embedded as `ℚ`. -/
abbrev Decimal := ℚ

/-- Sentinel for "no candidate yet" (`DECIMAL_LARGEST` in the source, the
largest representable float).  Any huge positive rational serves; we use
`2 ^ 128`. -/
def DECIMAL_LARGEST : Decimal := 340282366920938463463374607431768211456

/-- `SATAlgorithm::SAME_SEPARATING_AXIS_BIAS = decimal(0.001)`. -/
def SAME_SEPARATING_AXIS_BIAS : Decimal := 1 / 1000

/-- 3-component vector, mirroring the engine `Vector3`. -/
structure Vector3 where
  x : Decimal
  y : Decimal
  z : Decimal
deriving DecidableEq

instance : Inhabited Vector3 := ⟨⟨0, 0, 0⟩⟩

instance : Add Vector3 := ⟨fun a b => ⟨a.x + b.x, a.y + b.y, a.z + b.z⟩⟩

instance : Sub Vector3 := ⟨fun a b => ⟨a.x - b.x, a.y - b.y, a.z - b.z⟩⟩

instance : Neg Vector3 := ⟨fun a => ⟨-a.x, -a.y, -a.z⟩⟩

/-- `Vector3 * decimal`. -/
def Vector3.smul (v : Vector3) (k : Decimal) : Vector3 := ⟨v.x * k, v.y * k, v.z * k⟩

/-- Dot product. -/
def Vector3.dot (a b : Vector3) : Decimal := a.x * b.x + a.y * b.y + a.z * b.z

/-- Cross product. -/
def Vector3.cross (a b : Vector3) : Vector3 :=
  ⟨a.y * b.z - a.z * b.y, a.z * b.x - a.x * b.z, a.x * b.y - a.y * b.x⟩

/-- Squared length. -/
def Vector3.lengthSquare (v : Vector3) : Decimal := v.dot v

/-- `Vector3::getUnit` / `Vector3::normalize`: division by the length
`sqrt(lengthSquare)`; the float square-root routine is the parameter `sq`. -/
def Vector3.getUnitWith (sq : Decimal → Decimal) (v : Vector3) : Vector3 :=
  v.smul (1 / sq v.lengthSquare)

/-- A reference square-root routine: exact on perfect squares (numerator and
denominator), used only to instantiate `sq` in concrete evaluations. -/
def ratSqrt (q : Decimal) : Decimal := (Nat.sqrt q.num.toNat : Decimal) / (Nat.sqrt q.den : Decimal)

/-- Modelled from the spec: rotation part of a rigid transform ("Standard 3D
primitives", §3); stored as the three matrix columns.  The engine stores a
quaternion; only the induced linear map is observable in the SAT source. -/
structure Rot3 where
  c1 : Vector3
  c2 : Vector3
  c3 : Vector3
deriving DecidableEq

instance : Inhabited Rot3 := ⟨⟨⟨1,0,0⟩, ⟨0,1,0⟩, ⟨0,0,1⟩⟩⟩

/-- Apply the rotation to a vector (`getOrientation() * v` in the source). -/
def Rot3.rotate (r : Rot3) (v : Vector3) : Vector3 :=
  (r.c1.smul v.x) + (r.c2.smul v.y) + (r.c3.smul v.z)

/-- Transpose, which is the inverse for the orthogonal rotations the engine
feeds in. -/
def Rot3.transpose (r : Rot3) : Rot3 :=
  ⟨⟨r.c1.x, r.c2.x, r.c3.x⟩, ⟨r.c1.y, r.c2.y, r.c3.y⟩, ⟨r.c1.z, r.c2.z, r.c3.z⟩⟩

/-- Rotation composition. -/
def Rot3.comp (r s : Rot3) : Rot3 := ⟨r.rotate s.c1, r.rotate s.c2, r.rotate s.c3⟩

/-- Identity rotation. -/
def Rot3.id : Rot3 := ⟨⟨1,0,0⟩, ⟨0,1,0⟩, ⟨0,0,1⟩⟩

/-- Modelled from the spec: rigid transform, "composes a rotation (quaternion)
and a translation" (§3). -/
structure Transform where
  rot : Rot3
  pos : Vector3
deriving DecidableEq

instance : Inhabited Transform := ⟨⟨Rot3.id, ⟨0,0,0⟩⟩⟩

/-- `Transform::operator*(Vector3)`: rotate then translate. -/
def Transform.applyV (t : Transform) (v : Vector3) : Vector3 := t.rot.rotate v + t.pos

/-- `Transform::getInverse`: for `T(x) = R x + p` this is `x ↦ Rᵀ x - Rᵀ p`. -/
def Transform.getInverse (t : Transform) : Transform :=
  ⟨t.rot.transpose, -(t.rot.transpose.rotate t.pos)⟩

/-- `Transform::operator*(Transform)`: composition. -/
def Transform.comp (t1 t2 : Transform) : Transform :=
  ⟨t1.rot.comp t2.rot, t1.rot.rotate t2.pos + t1.pos⟩

/-- Identity transform. -/
def Transform.identity : Transform := ⟨Rot3.id, ⟨0,0,0⟩⟩

/-! ## Half-edge mesh and collision shapes

The mesh accessors and the shape support functions live outside the SAT
source file; they are modelled from the specification (§3 "Half-edge mesh",
§6 "Consumed from collaborators"). -/

/-- Modelled from the spec: `HalfEdgeStructure::Face` — "Faces reference a
starting half-edge and list vertex indices in CCW order from outside". -/
structure Face where
  faceVertices : List Nat
  edgeIndex : Nat
deriving DecidableEq

instance : Inhabited Face := ⟨⟨[], 0⟩⟩

/-- Modelled from the spec: `HalfEdgeStructure::Edge` — "Each half-edge
stores: origin `vertexIndex`, `nextEdgeIndex` (around its face),
`twinEdgeIndex` (opposite half-edge), `faceIndex` (its face)". -/
structure HEdge where
  vertexIndex : Nat
  nextEdgeIndex : Nat
  twinEdgeIndex : Nat
  faceIndex : Nat
deriving DecidableEq

instance : Inhabited HEdge := ⟨⟨0, 0, 0, 0⟩⟩

/-- Modelled from the spec: the read-only half-edge mesh view of a convex
polyhedron (faces, half-edges, vertices, face normals, centroid). -/
structure Mesh where
  vertices : List Vector3
  faces : List Face
  halfEdges : List HEdge
  faceNormals : List Vector3
  centroid : Vector3
deriving DecidableEq

/-- Shape-type discriminator (`CollisionShapeType` in the engine). -/
inductive CollisionShapeType
  | SPHERE
  | CAPSULE
  | CONVEX_POLYHEDRON
  | TRIANGLE
deriving DecidableEq

/-- A convex polyhedron shape: its half-edge mesh plus its type tag, which is
`CONVEX_POLYHEDRON` or `TRIANGLE` (a triangle is a degenerate polyhedron with
special caching rules, §3). -/
structure ConvexPolyhedronShape where
  shapeType : CollisionShapeType
  mesh : Mesh
deriving DecidableEq

/-- `SphereShape { radius }`. -/
structure SphereShape where
  radius : Decimal
deriving DecidableEq

/-- `Capsule { radius, height }` — axis along local Y, segment endpoints at
`±height/2` (§3). -/
structure CapsuleShape where
  radius : Decimal
  height : Decimal
deriving DecidableEq

def ConvexPolyhedronShape.getType (p : ConvexPolyhedronShape) : CollisionShapeType := p.shapeType

/-- Modelled from the spec: mesh accessor `getNbFaces`. -/
def ConvexPolyhedronShape.getNbFaces (p : ConvexPolyhedronShape) : Nat := p.mesh.faces.length

/-- Modelled from the spec: mesh accessor `getNbHalfEdges`. -/
def ConvexPolyhedronShape.getNbHalfEdges (p : ConvexPolyhedronShape) : Nat := p.mesh.halfEdges.length

/-- Modelled from the spec: mesh accessor `getFace(i)` (total, with a default
for out-of-range indices). -/
def ConvexPolyhedronShape.getFace (p : ConvexPolyhedronShape) (i : Nat) : Face :=
  p.mesh.faces.getD i default

/-- Modelled from the spec: mesh accessor `getHalfEdge(i)`. -/
def ConvexPolyhedronShape.getHalfEdge (p : ConvexPolyhedronShape) (i : Nat) : HEdge :=
  p.mesh.halfEdges.getD i default

/-- Modelled from the spec: mesh accessor `getVertexPosition(vi)`. -/
def ConvexPolyhedronShape.getVertexPosition (p : ConvexPolyhedronShape) (vi : Nat) : Vector3 :=
  p.mesh.vertices.getD vi default

/-- Modelled from the spec: mesh accessor `getFaceNormal(i)` — "Every face
normal is the outward unit normal of that face". -/
def ConvexPolyhedronShape.getFaceNormal (p : ConvexPolyhedronShape) (i : Nat) : Vector3 :=
  p.mesh.faceNormals.getD i default

/-- Modelled from the spec: mesh accessor `getCentroid()`. -/
def ConvexPolyhedronShape.getCentroid (p : ConvexPolyhedronShape) : Vector3 := p.mesh.centroid

/-- Modelled from the spec: `getLocalSupportPointWithoutMargin(direction)` —
"polyhedron support (vertex farthest along direction)" (§6).  Ties keep the
earliest vertex. -/
def ConvexPolyhedronShape.getLocalSupportPointWithoutMargin
    (p : ConvexPolyhedronShape) (d : Vector3) : Vector3 :=
  p.mesh.vertices.foldl (fun best v => if best.dot d < v.dot d then v else best)
    (p.mesh.vertices.headD default)

/-- Modelled from the spec: `getLocalSupportPointWithMargin(direction)` —
"capsule support (includes radius)" (§6): the farther inner-segment endpoint
along `direction`, displaced by `radius` along the unit direction. -/
def CapsuleShape.getLocalSupportPointWithMargin (sq : Decimal → Decimal)
    (c : CapsuleShape) (d : Vector3) : Vector3 :=
  if 0 < d.lengthSquare then
    let u := d.getUnitWith sq
    let top : Vector3 := ⟨0, c.height / 2, 0⟩ + u.smul c.radius
    let bot : Vector3 := ⟨0, -(c.height / 2), 0⟩ + u.smul c.radius
    if bot.dot d < top.dot d then top else bot
  else ⟨0, c.radius, 0⟩

/-! ## External geometric helpers (modelled from the spec, §4.6–§4.7, §6) -/

/-- Modelled from the spec: `areParallelVectors` — the "parallel-vector
predicate" with "the parallel-edge threshold 1e-5 (squared-length)" (§6). -/
def areParallelVectors (v1 v2 : Vector3) : Prop :=
  (v1.cross v2).lengthSquare < 1 / 100000

instance (v1 v2 : Vector3) : Decidable (areParallelVectors v1 v2) := by
  unfold areParallelVectors; infer_instance

/-- Modelled from the spec: `computeClosestPointBetweenTwoSegments` — "closest
points between two segments" (§4.6 helper list).  Standard clamped
closest-point computation; degenerate denominators fall back to the segment
start points. -/
def computeClosestPointBetweenTwoSegments (p1 q1 p2 q2 : Vector3) : Vector3 × Vector3 :=
  let d1 := q1 - p1
  let d2 := q2 - p2
  let r := p1 - p2
  let a := d1.dot d1
  let e := d2.dot d2
  let f := d2.dot r
  let c := d1.dot r
  let b := d1.dot d2
  let denom := a * e - b * b
  let s0 : Decimal := if denom ≠ 0 then (b * f - c * e) / denom else 0
  let s1 := max 0 (min 1 s0)
  let t0 : Decimal := if e ≠ 0 then (b * s1 + f) / e else 0
  let t1 := max 0 (min 1 t0)
  let s2 : Decimal := if a ≠ 0 then max 0 (min 1 ((b * t1 - c) / a)) else 0
  (p1 + d1.smul s2, p2 + d2.smul t1)

/-- A clipping plane is a (point, normal) pair. -/
abbrev Plane := Vector3 × Vector3

/-- Modelled from the spec: `clipSegmentWithPlanes` (§4.6) — clip segment
`[A, B]` to the intersection of half-spaces; each plane's inside half-space
(the side containing the reference face) is where `(p − point)·normal ≤ 0`;
boundary points are retained.  "Produces a clipped segment of exactly two
points (degenerate to a duplicated point if the clipped segment collapses)." -/
def clipSegmentWithPlanes (a b : Vector3) (points normals : List Vector3) : List Vector3 :=
  let step := fun (tt : Decimal × Decimal) (pn : Plane) =>
    let (t0, t1) := tt
    let da := (a - pn.1).dot pn.2
    let db := (b - pn.1).dot pn.2
    if da ≤ 0 ∧ db ≤ 0 then (t0, t1)
    else if 0 < da ∧ 0 < db then (1, 0)
    else
      let tstar := da / (da - db)
      if 0 < da then (max t0 tstar, t1) else (t0, min t1 tstar)
  let (t0, t1) := (points.zip normals).foldl step ((0 : Decimal), (1 : Decimal))
  if t0 ≤ t1 then [a + (b - a).smul t0, a + (b - a).smul t1]
  else [a, a]

/-- One Sutherland–Hodgman pass of a polygon against one plane, keeping the
side `(p − point)·normal ≥ 0` (boundary retained), inserting edge–plane
intersections at sign changes. -/
def clipPolygonAgainstPlane (poly : List Vector3) (pn : Plane) : List Vector3 :=
  match poly with
  | [] => []
  | v0 :: _ =>
    let edges := poly.zip (poly.drop 1 ++ [v0])
    edges.foldl (fun acc e =>
      let (v1, v2) := e
      let d1 := (v1 - pn.1).dot pn.2
      let d2 := (v2 - pn.1).dot pn.2
      if 0 ≤ d2 then
        if d1 < 0 then acc ++ [v1 + (v2 - v1).smul (d1 / (d1 - d2)), v2]
        else acc ++ [v2]
      else
        if 0 ≤ d1 then acc ++ [v1 + (v2 - v1).smul (d1 / (d1 - d2))]
        else acc) []

/-- Modelled from the spec: `clipPolygonWithPlanes` (§4.7) — "the
Sutherland–Hodgman polygon clip with outward-pointing planes negated"; the
caller passes inward-pointing normals, so the kept side of each plane is
`(p − point)·normal ≥ 0`, boundary retained. -/
def clipPolygonWithPlanes (poly : List Vector3) (points normals : List Vector3) : List Vector3 :=
  (points.zip normals).foldl clipPolygonAgainstPlane poly

/-! ## Narrow-phase interface records -/

/-- `LastFrameCollisionInfo` (§3): the mutable per-pair cache updated by the
SAT drivers. -/
structure LastFrameCollisionInfo where
  isValid : Bool
  wasUsingSAT : Bool
  wasColliding : Bool
  satIsAxisFacePolyhedron1 : Bool
  satIsAxisFacePolyhedron2 : Bool
  satMinAxisFaceIndex : Nat
  satMinEdge1Index : Nat
  satMinEdge2Index : Nat
deriving DecidableEq

/-- Tag of a `LastFrameCollisionInfo` field assigned by a SAT driver; the
drivers below log one tag per source assignment, in source order, so that
"the record is written" is observable. -/
inductive LFW
  | wIsAxisFace1
  | wIsAxisFace2
  | wFaceIndex
  | wEdge1
  | wEdge2
deriving DecidableEq

/-- One contact point handed to the manifold builder
(`addContactPoint(worldNormal, penetrationDepth, localPoint1, localPoint2)`). -/
structure ContactPoint where
  normalWorld : Vector3
  penetrationDepth : Decimal
  localPoint1 : Vector3
  localPoint2 : Vector3
deriving DecidableEq

instance : Inhabited ContactPoint := ⟨⟨default, 0, default, default⟩⟩

/-- The shape variant reachable by the SAT drivers. -/
inductive ShapeV
  | sphereS (s : SphereShape)
  | capsuleS (c : CapsuleShape)
  | polyS (p : ConvexPolyhedronShape)
deriving DecidableEq

/-- `CollisionShape::getType()`. -/
def ShapeV.getType : ShapeV → CollisionShapeType
  | .sphereS _ => .SPHERE
  | .capsuleS _ => .CAPSULE
  | .polyS p => p.getType

/-- `static_cast<const SphereShape*>`: total stand-in for the downcast the
driver performs under its shape-type assertion. -/
def ShapeV.asSphere : ShapeV → SphereShape
  | .sphereS s => s
  | _ => ⟨0⟩

/-- `static_cast<const CapsuleShape*>`. -/
def ShapeV.asCapsule : ShapeV → CapsuleShape
  | .capsuleS c => c
  | _ => ⟨0, 0⟩

/-- `static_cast<const ConvexPolyhedronShape*>`. -/
def ShapeV.asPoly : ShapeV → ConvexPolyhedronShape
  | .polyS p => p
  | _ => ⟨.CONVEX_POLYHEDRON, ⟨[], [], [], [], default⟩⟩

/-- `NarrowPhaseInfo` (§3): the two shapes, their shape-to-world transforms
and the pair's last-frame record. -/
structure NarrowPhaseInfo where
  collisionShape1 : ShapeV
  collisionShape2 : ShapeV
  shape1ToWorldTransform : Transform
  shape2ToWorldTransform : Transform
  lastFrameInfo : LastFrameCollisionInfo
deriving DecidableEq

/-- Observable outcome of one SAT driver call: the boolean result, the
contact points appended to the manifold builder (in order), the last-frame
record as left by the call, and the log of record-field assignments. -/
structure SATResult where
  collide : Bool
  contacts : List ContactPoint
  lastFrame : LastFrameCollisionInfo
  writes : List LFW
deriving DecidableEq

/-- Outcome of the temporal-coherence preamble shared by the three drivers:
exit with no collision, adopt the cached axis (skipping the full scan), or
fall through to the full scan. -/
inductive TCOutcome (α : Type)
  | exitNoCollision
  | adopt (a : α)
  | scan
deriving DecidableEq

/-! ## Penetration probes and Gauss-map predicates (from the source) -/

/-- `SATAlgorithm::computePolyhedronFaceVsSpherePenetrationDepth`. -/
def computePolyhedronFaceVsSpherePenetrationDepth (faceIndex : Nat)
    (polyhedron : ConvexPolyhedronShape) (sphere : SphereShape)
    (sphereCenter : Vector3) : Decimal :=
  let face := polyhedron.getFace faceIndex
  let faceNormal := polyhedron.getFaceNormal faceIndex
  let sphereCenterToFacePoint :=
    polyhedron.getVertexPosition (face.faceVertices.getD 0 0) - sphereCenter
  sphereCenterToFacePoint.dot faceNormal + sphere.radius

/-- `SATAlgorithm::computePolyhedronFaceVsCapsulePenetrationDepth`; the C++
out-parameter `outFaceNormalCapsuleSpace` is the second component. -/
def computePolyhedronFaceVsCapsulePenetrationDepth (sq : Decimal → Decimal)
    (polyhedronFaceIndex : Nat) (polyhedron : ConvexPolyhedronShape)
    (capsule : CapsuleShape) (polyhedronToCapsuleTransform : Transform) :
    Decimal × Vector3 :=
  let face := polyhedron.getFace polyhedronFaceIndex
  let faceNormal := polyhedron.getFaceNormal polyhedronFaceIndex
  let outFaceNormalCapsuleSpace := polyhedronToCapsuleTransform.rot.rotate faceNormal
  let capsuleSupportPoint := capsule.getLocalSupportPointWithMargin sq (-outFaceNormalCapsuleSpace)
  let pointOnPolyhedronFace := polyhedronToCapsuleTransform.applyV
    (polyhedron.getVertexPosition (face.faceVertices.getD 0 0))
  let capsuleSupportPointToFacePoint := pointOnPolyhedronFace - capsuleSupportPoint
  (capsuleSupportPointToFacePoint.dot outFaceNormalCapsuleSpace, outFaceNormalCapsuleSpace)

/-- `SATAlgorithm::computeEdgeVsCapsuleInnerSegmentPenetrationDepth`; the C++
out-parameter `outAxis` is the second component (the raw cross product when
the parallel guard declines the axis, as in the source). -/
def computeEdgeVsCapsuleInnerSegmentPenetrationDepth (sq : Decimal → Decimal)
    (capsule : CapsuleShape) (capsuleSegmentAxis edgeVertex1 edgeDirectionCapsuleSpace : Vector3)
    (polyhedron : ConvexPolyhedronShape) (polyhedronToCapsuleTransform : Transform) :
    Decimal × Vector3 :=
  let outAxis := capsuleSegmentAxis.cross edgeDirectionCapsuleSpace
  if 1 / 100000 ≤ outAxis.lengthSquare then
    let polyhedronCentroid := polyhedronToCapsuleTransform.applyV polyhedron.getCentroid
    let pointOnPolyhedronEdge := polyhedronToCapsuleTransform.applyV edgeVertex1
    let outAxis2 := if outAxis.dot (pointOnPolyhedronEdge - polyhedronCentroid) < 0
      then -outAxis else outAxis
    let outAxis3 := outAxis2.getUnitWith sq
    let capsuleSupportPoint := capsule.getLocalSupportPointWithMargin sq (-outAxis3)
    let capsuleSupportPointToEdgePoint := pointOnPolyhedronEdge - capsuleSupportPoint
    (capsuleSupportPointToEdgePoint.dot outAxis3, outAxis3)
  else (DECIMAL_LARGEST, outAxis)

/-- `SATAlgorithm::isMinkowskiFaceCapsuleVsEdge`. -/
def isMinkowskiFaceCapsuleVsEdge (capsuleSegment edgeAdjacentFace1Normal
    edgeAdjacentFace2Normal : Vector3) : Prop :=
  capsuleSegment.dot edgeAdjacentFace1Normal * capsuleSegment.dot edgeAdjacentFace2Normal < 0

instance (s n1 n2 : Vector3) : Decidable (isMinkowskiFaceCapsuleVsEdge s n1 n2) := by
  unfold isMinkowskiFaceCapsuleVsEdge; infer_instance

/-- `SATAlgorithm::testGaussMapArcsIntersect`. -/
def testGaussMapArcsIntersect (a b c d bCrossA dCrossC : Vector3) : Prop :=
  c.dot bCrossA * d.dot bCrossA < 0 ∧ a.dot dCrossC * b.dot dCrossC < 0 ∧
    c.dot bCrossA * b.dot dCrossC > 0

instance (a b c d e f : Vector3) : Decidable (testGaussMapArcsIntersect a b c d e f) := by
  unfold testGaussMapArcsIntersect; infer_instance

/-- `SATAlgorithm::testEdgesBuildMinkowskiFace`.  Note: the source applies the
full `polyhedron1ToPolyhedron2` transform (rotation and translation) to the
two adjacent-face normals of edge 1, but only the orientation to the edge
direction. -/
def testEdgesBuildMinkowskiFace (polyhedron1 : ConvexPolyhedronShape) (edge1 : HEdge)
    (polyhedron2 : ConvexPolyhedronShape) (edge2 : HEdge)
    (polyhedron1ToPolyhedron2 : Transform) : Prop :=
  let a := polyhedron1ToPolyhedron2.applyV (polyhedron1.getFaceNormal edge1.faceIndex)
  let b := polyhedron1ToPolyhedron2.applyV
    (polyhedron1.getFaceNormal (polyhedron1.getHalfEdge edge1.twinEdgeIndex).faceIndex)
  let c := polyhedron2.getFaceNormal edge2.faceIndex
  let d := polyhedron2.getFaceNormal (polyhedron2.getHalfEdge edge2.twinEdgeIndex).faceIndex
  let edge1Vertex1 := polyhedron1.getVertexPosition edge1.vertexIndex
  let edge1Vertex2 := polyhedron1.getVertexPosition
    (polyhedron1.getHalfEdge edge1.twinEdgeIndex).vertexIndex
  let bCrossA := polyhedron1ToPolyhedron2.rot.rotate (edge1Vertex2 - edge1Vertex1)
  let edge2Vertex1 := polyhedron2.getVertexPosition edge2.vertexIndex
  let edge2Vertex2 := polyhedron2.getVertexPosition
    (polyhedron2.getHalfEdge edge2.twinEdgeIndex).vertexIndex
  let dCrossC := edge2Vertex2 - edge2Vertex1
  testGaussMapArcsIntersect a b (-c) (-d) bCrossA dCrossC

instance (p1 : ConvexPolyhedronShape) (e1 : HEdge) (p2 : ConvexPolyhedronShape) (e2 : HEdge)
    (t : Transform) : Decidable (testEdgesBuildMinkowskiFace p1 e1 p2 e2 t) := by
  unfold testEdgesBuildMinkowskiFace; infer_instance

/-- `SATAlgorithm::computeDistanceBetweenEdges`; the C++ out-parameter
`outSeparatingAxisPolyhedron2Space` is the second component (left at the zero
vector when the parallel guard declines the axis, where the source leaves the
caller's variable unassigned). -/
def computeDistanceBetweenEdges (sq : Decimal → Decimal)
    (edge1A edge2A polyhedron2Centroid edge1Direction edge2Direction : Vector3) :
    Decimal × Vector3 :=
  if areParallelVectors edge1Direction edge2Direction then (DECIMAL_LARGEST, default)
  else
    let axis := (edge1Direction.cross edge2Direction).getUnitWith sq
    let axis2 := if 0 < axis.dot (edge2A - polyhedron2Centroid) then -axis else axis
    (-(axis2.dot (edge2A - edge1A)), axis2)

/-- `SATAlgorithm::findMostAntiParallelFaceOnPolyhedron`. -/
def findMostAntiParallelFaceOnPolyhedron (polyhedron : ConvexPolyhedronShape)
    (direction : Vector3) : Nat :=
  (List.range polyhedron.getNbFaces).foldl
    (fun acc i =>
      let (minDotProduct, _) := acc
      let dotProduct := (polyhedron.getFaceNormal i).dot direction
      if dotProduct < minDotProduct then (dotProduct, i) else acc)
    (DECIMAL_LARGEST, 0) |>.2

/-- `SATAlgorithm::testSingleFaceDirectionPolyhedronVsPolyhedron`. -/
def testSingleFaceDirectionPolyhedronVsPolyhedron (polyhedron1 polyhedron2 : ConvexPolyhedronShape)
    (polyhedron1ToPolyhedron2 : Transform) (faceIndex : Nat) : Decimal :=
  let face := polyhedron1.getFace faceIndex
  let faceNormal := polyhedron1.getFaceNormal faceIndex
  let faceNormalPolyhedron2Space := polyhedron1ToPolyhedron2.rot.rotate faceNormal
  let supportPoint := polyhedron2.getLocalSupportPointWithoutMargin (-faceNormalPolyhedron2Space)
  let faceVertex := polyhedron1ToPolyhedron2.applyV
    (polyhedron1.getVertexPosition (face.faceVertices.getD 0 0))
  (faceVertex - supportPoint).dot faceNormalPolyhedron2Space

/-- Loop body of `SATAlgorithm::testFacesDirectionPolyhedronVsPolyhedron`:
fold over the remaining face indices carrying `(minPenetrationDepth,
minFaceIndex)`, with the source's early return on a separating axis. -/
def testFacesDirectionGo (polyhedron1 polyhedron2 : ConvexPolyhedronShape)
    (polyhedron1ToPolyhedron2 : Transform) :
    List Nat → Decimal → Nat → Decimal × Nat
  | [], minD, minI => (minD, minI)
  | f :: rest, minD, minI =>
    let pd := testSingleFaceDirectionPolyhedronVsPolyhedron polyhedron1 polyhedron2
      polyhedron1ToPolyhedron2 f
    if pd ≤ 0 then (pd, f)
    else if pd < minD then testFacesDirectionGo polyhedron1 polyhedron2 polyhedron1ToPolyhedron2 rest pd f
    else testFacesDirectionGo polyhedron1 polyhedron2 polyhedron1ToPolyhedron2 rest minD minI

/-- `SATAlgorithm::testFacesDirectionPolyhedronVsPolyhedron`; the C++
out-parameter `minFaceIndex` is the second component. -/
def testFacesDirectionPolyhedronVsPolyhedron (polyhedron1 polyhedron2 : ConvexPolyhedronShape)
    (polyhedron1ToPolyhedron2 : Transform) : Decimal × Nat :=
  testFacesDirectionGo polyhedron1 polyhedron2 polyhedron1ToPolyhedron2
    (List.range polyhedron1.getNbFaces) DECIMAL_LARGEST 0

/-! ## Sphere vs convex polyhedron driver -/

/-- The driver prologue of `testCollisionSphereVsConvexPolyhedron`: shape
selection, transform setup and the sphere center in polyhedron space
(`isSphereShape1`, `sphere`, `polyhedron`, `sphereToWorldTransform`,
`polyhedronToWorldTransform`, `sphereCenter`). -/
def sphereInputParts (info : NarrowPhaseInfo) :
    Bool × SphereShape × ConvexPolyhedronShape × Transform × Transform × Vector3 :=
  let isSphereShape1 := info.collisionShape1.getType = CollisionShapeType.SPHERE
  let sphere := (if isSphereShape1 then info.collisionShape1 else info.collisionShape2).asSphere
  let polyhedron := (if isSphereShape1 then info.collisionShape2 else info.collisionShape1).asPoly
  let sphereToWorldTransform :=
    if isSphereShape1 then info.shape1ToWorldTransform else info.shape2ToWorldTransform
  let polyhedronToWorldTransform :=
    if isSphereShape1 then info.shape2ToWorldTransform else info.shape1ToWorldTransform
  let worldToPolyhedronTransform := polyhedronToWorldTransform.getInverse
  let sphereToPolyhedronSpaceTransform := worldToPolyhedronTransform.comp sphereToWorldTransform
  (isSphereShape1, sphere, polyhedron, sphereToWorldTransform, polyhedronToWorldTransform,
    sphereToPolyhedronSpaceTransform.pos)

/-- Temporal-coherence preamble of the sphere driver (source lines 84–114):
skipped for triangle polyhedra; on a cached separating axis exit with no
collision; on persistent overlap with `wasColliding` adopt the cached face. -/
def sphereTemporal (polyhedron : ConvexPolyhedronShape) (sphere : SphereShape)
    (sphereCenter : Vector3) (lf : LastFrameCollisionInfo) : TCOutcome (Decimal × Nat) :=
  if polyhedron.getType ≠ CollisionShapeType.TRIANGLE then
    if lf.isValid ∧ lf.wasUsingSAT then
      let penetrationDepth := computePolyhedronFaceVsSpherePenetrationDepth
        lf.satMinAxisFaceIndex polyhedron sphere sphereCenter
      if penetrationDepth ≤ 0 then .exitNoCollision
      else if lf.wasColliding then .adopt (penetrationDepth, lf.satMinAxisFaceIndex)
      else .scan
    else .scan
  else .scan

/-- Face loop of the sphere driver (source lines 121–139): early return with
the separating face index, otherwise track the minimum positive depth. -/
def sphereFaceScanGo (polyhedron : ConvexPolyhedronShape) (sphere : SphereShape)
    (sphereCenter : Vector3) : List Nat → Decimal → Nat → Except Nat (Decimal × Nat)
  | [], minD, minI => .ok (minD, minI)
  | f :: rest, minD, minI =>
    let penetrationDepth := computePolyhedronFaceVsSpherePenetrationDepth f polyhedron sphere
      sphereCenter
    if penetrationDepth ≤ 0 then .error f
    else if penetrationDepth < minD then
      sphereFaceScanGo polyhedron sphere sphereCenter rest penetrationDepth f
    else sphereFaceScanGo polyhedron sphere sphereCenter rest minD minI

/-- Contact construction of the sphere driver (source lines 142–158). -/
def sphereContact (isSphereShape1 : Bool) (sphere : SphereShape)
    (polyhedron : ConvexPolyhedronShape) (sphereToWorldTransform polyhedronToWorldTransform : Transform)
    (sphereCenter : Vector3) (minPenetrationDepth : Decimal) (minFaceIndex : Nat)
    (lf : LastFrameCollisionInfo) : SATResult :=
  let minFaceNormal := polyhedron.getFaceNormal minFaceIndex
  let normalWorld := -(polyhedronToWorldTransform.rot.rotate minFaceNormal)
  let contactPointSphereLocal :=
    (sphereToWorldTransform.getInverse.applyV normalWorld).smul sphere.radius
  let contactPointPolyhedronLocal :=
    sphereCenter + minFaceNormal.smul (minPenetrationDepth - sphere.radius)
  let normalWorld2 := if ¬isSphereShape1 then -normalWorld else normalWorld
  { collide := true
    contacts := [{ normalWorld := normalWorld2, penetrationDepth := minPenetrationDepth,
                   localPoint1 := if isSphereShape1 then contactPointSphereLocal
                     else contactPointPolyhedronLocal,
                   localPoint2 := if isSphereShape1 then contactPointPolyhedronLocal
                     else contactPointSphereLocal }]
    lastFrame := { lf with satMinAxisFaceIndex := minFaceIndex }
    writes := [.wFaceIndex] }

/-- Body of the sphere driver after the prologue. -/
def sphereCore (isSphereShape1 : Bool) (sphere : SphereShape)
    (polyhedron : ConvexPolyhedronShape)
    (sphereToWorldTransform polyhedronToWorldTransform : Transform) (sphereCenter : Vector3)
    (lf : LastFrameCollisionInfo) : SATResult :=
  match sphereTemporal polyhedron sphere sphereCenter lf with
  | .exitNoCollision => { collide := false, contacts := [], lastFrame := lf, writes := [] }
  | .adopt (minD, minI) =>
    sphereContact isSphereShape1 sphere polyhedron sphereToWorldTransform
      polyhedronToWorldTransform sphereCenter minD minI lf
  | .scan =>
    match sphereFaceScanGo polyhedron sphere sphereCenter
      (List.range polyhedron.getNbFaces) DECIMAL_LARGEST 0 with
    | .error f =>
      { collide := false, contacts := [],
        lastFrame := { lf with satMinAxisFaceIndex := f }, writes := [.wFaceIndex] }
    | .ok (minD, minI) =>
      sphereContact isSphereShape1 sphere polyhedron sphereToWorldTransform
        polyhedronToWorldTransform sphereCenter minD minI lf

/-- `SATAlgorithm::testCollisionSphereVsConvexPolyhedron` (source lines
47–159). -/
def testCollisionSphereVsConvexPolyhedron (info : NarrowPhaseInfo) : SATResult :=
  sphereCore (sphereInputParts info).1 (sphereInputParts info).2.1
    (sphereInputParts info).2.2.1 (sphereInputParts info).2.2.2.1
    (sphereInputParts info).2.2.2.2.1 (sphereInputParts info).2.2.2.2.2 info.lastFrameInfo

/-! ## Capsule vs convex polyhedron driver -/

/-- The adjacent-edge plane collection loop shared by the two face-contact
builders (source lines 494–504 and 822–842): walk the reference face's edge
cycle, pushing for each edge the pair (edge origin vertex, twin-face normal),
negated for the polyhedron case.  The do-while is given the number of
half-edges of the mesh as fuel; a well-formed face cycle closes within it. -/
def facePlanesGo (p : ConvexPolyhedronShape) (negateNormals : Bool) (firstEdgeIndex : Nat) :
    Nat → Nat → List Plane
  | 0, _ => []
  | fuel + 1, edgeIndex =>
    let edge := p.getHalfEdge edgeIndex
    let twinEdge := p.getHalfEdge edge.twinEdgeIndex
    let n := p.getFaceNormal twinEdge.faceIndex
    let entry : Plane := (p.getVertexPosition edge.vertexIndex, if negateNormals then -n else n)
    if edge.nextEdgeIndex = firstEdgeIndex then [entry]
    else entry :: facePlanesGo p negateNormals firstEdgeIndex fuel edge.nextEdgeIndex

/-- The clipping planes built from the adjacent edges of a reference face. -/
def facePlanes (p : ConvexPolyhedronShape) (negateNormals : Bool) (faceIndex : Nat) : List Plane :=
  let firstEdgeIndex := (p.getFace faceIndex).edgeIndex
  facePlanesGo p negateNormals firstEdgeIndex p.getNbHalfEdges firstEdgeIndex

/-- `SATAlgorithm::computeCapsulePolyhedronFaceContactPoints` (source lines
480–526), returning the two contact points it appends. -/
def computeCapsulePolyhedronFaceContactPoints (referenceFaceIndex : Nat)
    (capsuleRadius : Decimal) (polyhedron : ConvexPolyhedronShape)
    (penetrationDepth : Decimal) (polyhedronToCapsuleTransform : Transform)
    (normalWorld separatingAxisCapsuleSpace : Vector3)
    (capsuleSegAPolyhedronSpace capsuleSegBPolyhedronSpace : Vector3)
    (isCapsuleShape1 : Bool) : List ContactPoint :=
  let planes := facePlanes polyhedron false referenceFaceIndex
  let clipSegment := clipSegmentWithPlanes capsuleSegAPolyhedronSpace capsuleSegBPolyhedronSpace
    (planes.map Prod.fst) (planes.map Prod.snd)
  let faceNormal := polyhedron.getFaceNormal referenceFaceIndex
  let c0 := clipSegment.getD 0 default
  let c1 := clipSegment.getD 1 default
  let contactPoint1Polyhedron := c0 + faceNormal.smul (penetrationDepth - capsuleRadius)
  let contactPoint2Polyhedron := c1 + faceNormal.smul (penetrationDepth - capsuleRadius)
  let contactPoint1Capsule := polyhedronToCapsuleTransform.applyV c0 -
    separatingAxisCapsuleSpace.smul capsuleRadius
  let contactPoint2Capsule := polyhedronToCapsuleTransform.applyV c1 -
    separatingAxisCapsuleSpace.smul capsuleRadius
  [{ normalWorld := normalWorld, penetrationDepth := penetrationDepth,
     localPoint1 := if isCapsuleShape1 then contactPoint1Capsule else contactPoint1Polyhedron,
     localPoint2 := if isCapsuleShape1 then contactPoint1Polyhedron else contactPoint1Capsule },
   { normalWorld := normalWorld, penetrationDepth := penetrationDepth,
     localPoint1 := if isCapsuleShape1 then contactPoint2Capsule else contactPoint2Polyhedron,
     localPoint2 := if isCapsuleShape1 then contactPoint2Polyhedron else contactPoint2Capsule }]

/-- The mutable locals of the capsule driver's axis search (source lines
203–210), with the source's initial values (`minEdgeIndex` is `uint
minEdgeIndex = 0`). -/
structure CapsuleScanState where
  minPenetrationDepth : Decimal
  minFaceIndex : Nat
  minEdgeIndex : Nat
  isMinPenetrationFaceNormal : Bool
  separatingAxisCapsuleSpace : Vector3
  separatingPolyhedronEdgeVertex1 : Vector3
  separatingPolyhedronEdgeVertex2 : Vector3
deriving DecidableEq

/-- Initial capsule scan state. -/
def initCapsuleScanState : CapsuleScanState :=
  { minPenetrationDepth := DECIMAL_LARGEST, minFaceIndex := 0, minEdgeIndex := 0,
    isMinPenetrationFaceNormal := false, separatingAxisCapsuleSpace := default,
    separatingPolyhedronEdgeVertex1 := default, separatingPolyhedronEdgeVertex2 := default }

/-- Early exits of the capsule scan: a separating polyhedron face normal or a
separating capsule-segment × edge axis, each carrying the index written to the
last-frame record. -/
inductive CapsuleEarly
  | faceSep (f : Nat)
  | edgeSep (e : Nat)
deriving DecidableEq

/-- The driver prologue of `testCollisionCapsuleVsConvexPolyhedron` (source
lines 182–201): `isCapsuleShape1`, `capsuleShape`, `polyhedron`,
`capsuleToWorld`, `polyhedronToWorld`, `polyhedronToCapsuleTransform`. -/
def capsuleInputParts (info : NarrowPhaseInfo) :
    Bool × CapsuleShape × ConvexPolyhedronShape × Transform × Transform × Transform :=
  let isCapsuleShape1 := info.collisionShape1.getType = CollisionShapeType.CAPSULE
  let capsuleShape := (if isCapsuleShape1 then info.collisionShape1 else info.collisionShape2).asCapsule
  let polyhedron := (if isCapsuleShape1 then info.collisionShape2 else info.collisionShape1).asPoly
  let capsuleToWorld :=
    if isCapsuleShape1 then info.shape1ToWorldTransform else info.shape2ToWorldTransform
  let polyhedronToWorld :=
    if isCapsuleShape1 then info.shape2ToWorldTransform else info.shape1ToWorldTransform
  (isCapsuleShape1, capsuleShape, polyhedron, capsuleToWorld, polyhedronToWorld,
    capsuleToWorld.getInverse.comp polyhedronToWorld)

/-- Temporal-coherence preamble of the capsule driver (source lines 220–297). -/
def capsuleTemporal (sq : Decimal → Decimal) (polyhedron : ConvexPolyhedronShape)
    (capsuleShape : CapsuleShape) (capsuleSegmentAxis : Vector3)
    (polyhedronToCapsuleTransform : Transform) (lf : LastFrameCollisionInfo) :
    TCOutcome CapsuleScanState :=
  if polyhedron.getType ≠ CollisionShapeType.TRIANGLE then
    if lf.isValid ∧ lf.wasUsingSAT then
      if lf.satIsAxisFacePolyhedron1 then
        let pr := computePolyhedronFaceVsCapsulePenetrationDepth sq lf.satMinAxisFaceIndex
          polyhedron capsuleShape polyhedronToCapsuleTransform
        if pr.1 ≤ 0 then .exitNoCollision
        else if lf.wasColliding then
          .adopt { initCapsuleScanState with
            minPenetrationDepth := pr.1, minFaceIndex := lf.satMinAxisFaceIndex,
            isMinPenetrationFaceNormal := true, separatingAxisCapsuleSpace := pr.2 }
        else .scan
      else
        let edge := polyhedron.getHalfEdge lf.satMinEdge1Index
        let edgeVertex1 := polyhedron.getVertexPosition edge.vertexIndex
        let edgeVertex2 := polyhedron.getVertexPosition
          (polyhedron.getHalfEdge edge.nextEdgeIndex).vertexIndex
        let edgeDirectionCapsuleSpace :=
          polyhedronToCapsuleTransform.rot.rotate (edgeVertex2 - edgeVertex1)
        let pr := computeEdgeVsCapsuleInnerSegmentPenetrationDepth sq capsuleShape
          capsuleSegmentAxis edgeVertex1 edgeDirectionCapsuleSpace polyhedron
          polyhedronToCapsuleTransform
        if pr.1 ≤ 0 then .exitNoCollision
        else if lf.wasColliding then
          .adopt { initCapsuleScanState with
            minPenetrationDepth := pr.1, minEdgeIndex := lf.satMinEdge1Index,
            isMinPenetrationFaceNormal := false, separatingAxisCapsuleSpace := pr.2,
            separatingPolyhedronEdgeVertex1 := edgeVertex1,
            separatingPolyhedronEdgeVertex2 := edgeVertex2 }
        else .scan
    else .scan
  else .scan

/-- Face loop of the capsule driver (source lines 304–329). -/
def capsuleFaceLoop (sq : Decimal → Decimal) (polyhedron : ConvexPolyhedronShape)
    (capsuleShape : CapsuleShape) (polyhedronToCapsuleTransform : Transform) :
    List Nat → CapsuleScanState → Except CapsuleEarly CapsuleScanState
  | [], st => .ok st
  | f :: rest, st =>
    let pr := computePolyhedronFaceVsCapsulePenetrationDepth sq f polyhedron capsuleShape
      polyhedronToCapsuleTransform
    if pr.1 ≤ 0 then .error (.faceSep f)
    else if pr.1 < st.minPenetrationDepth then
      capsuleFaceLoop sq polyhedron capsuleShape polyhedronToCapsuleTransform rest
        { st with minPenetrationDepth := pr.1, minFaceIndex := f,
                  isMinPenetrationFaceNormal := true, separatingAxisCapsuleSpace := pr.2 }
    else capsuleFaceLoop sq polyhedron capsuleShape polyhedronToCapsuleTransform rest st

/-- The half-edge indices visited by a `for (e = 0; e < n; e += 2)` loop. -/
def evenRange (n : Nat) : List Nat := (List.range n).filter (fun k => k % 2 = 0)

/-- Edge loop of the capsule driver (source lines 332–375), over the even
half-edge indices. -/
def capsuleEdgeLoop (sq : Decimal → Decimal) (polyhedron : ConvexPolyhedronShape)
    (capsuleShape : CapsuleShape) (capsuleSegmentAxis : Vector3)
    (polyhedronToCapsuleTransform : Transform) :
    List Nat → CapsuleScanState → Except CapsuleEarly CapsuleScanState
  | [], st => .ok st
  | e :: rest, st =>
    let edge := polyhedron.getHalfEdge e
    let edgeVertex1 := polyhedron.getVertexPosition edge.vertexIndex
    let edgeVertex2 := polyhedron.getVertexPosition
      (polyhedron.getHalfEdge edge.nextEdgeIndex).vertexIndex
    let edgeDirectionCapsuleSpace :=
      polyhedronToCapsuleTransform.rot.rotate (edgeVertex2 - edgeVertex1)
    let twinEdge := polyhedron.getHalfEdge edge.twinEdgeIndex
    let adjacentFace1Normal :=
      polyhedronToCapsuleTransform.rot.rotate (polyhedron.getFaceNormal edge.faceIndex)
    let adjacentFace2Normal :=
      polyhedronToCapsuleTransform.rot.rotate (polyhedron.getFaceNormal twinEdge.faceIndex)
    if isMinkowskiFaceCapsuleVsEdge capsuleSegmentAxis adjacentFace1Normal adjacentFace2Normal then
      let pr := computeEdgeVsCapsuleInnerSegmentPenetrationDepth sq capsuleShape
        capsuleSegmentAxis edgeVertex1 edgeDirectionCapsuleSpace polyhedron
        polyhedronToCapsuleTransform
      if pr.1 ≤ 0 then .error (.edgeSep e)
      else if pr.1 < st.minPenetrationDepth then
        capsuleEdgeLoop sq polyhedron capsuleShape capsuleSegmentAxis
          polyhedronToCapsuleTransform rest
          { st with minPenetrationDepth := pr.1, minEdgeIndex := e,
                    isMinPenetrationFaceNormal := false, separatingAxisCapsuleSpace := pr.2,
                    separatingPolyhedronEdgeVertex1 := edgeVertex1,
                    separatingPolyhedronEdgeVertex2 := edgeVertex2 }
      else capsuleEdgeLoop sq polyhedron capsuleShape capsuleSegmentAxis
        polyhedronToCapsuleTransform rest st
    else capsuleEdgeLoop sq polyhedron capsuleShape capsuleSegmentAxis
      polyhedronToCapsuleTransform rest st

/-- Contact construction of the capsule driver (source lines 379–421). -/
def capsuleContact (isCapsuleShape1 : Bool) (capsuleShape : CapsuleShape)
    (polyhedron : ConvexPolyhedronShape) (capsuleToWorld polyhedronToCapsuleTransform : Transform)
    (capsuleSegA capsuleSegB : Vector3) (st : CapsuleScanState)
    (lf : LastFrameCollisionInfo) : SATResult :=
  let capsuleToPolyhedronTransform := polyhedronToCapsuleTransform.getInverse
  let capsuleSegAPolyhedronSpace := capsuleToPolyhedronTransform.applyV capsuleSegA
  let capsuleSegBPolyhedronSpace := capsuleToPolyhedronTransform.applyV capsuleSegB
  let normalWorld := capsuleToWorld.rot.rotate st.separatingAxisCapsuleSpace
  let capsuleRadius := capsuleShape.radius
  if st.isMinPenetrationFaceNormal then
    { collide := true
      contacts := computeCapsulePolyhedronFaceContactPoints st.minFaceIndex capsuleRadius
        polyhedron st.minPenetrationDepth polyhedronToCapsuleTransform normalWorld
        st.separatingAxisCapsuleSpace capsuleSegAPolyhedronSpace capsuleSegBPolyhedronSpace
        isCapsuleShape1
      lastFrame := { lf with satIsAxisFacePolyhedron1 := true,
                             satMinAxisFaceIndex := st.minFaceIndex }
      writes := [.wIsAxisFace1, .wFaceIndex] }
  else
    let cps := computeClosestPointBetweenTwoSegments capsuleSegAPolyhedronSpace
      capsuleSegBPolyhedronSpace st.separatingPolyhedronEdgeVertex1
      st.separatingPolyhedronEdgeVertex2
    let closestPointCapsuleInnerSegment := cps.1
    let closestPointPolyhedronEdge := cps.2
    let contactPointCapsule := polyhedronToCapsuleTransform.applyV
      closestPointCapsuleInnerSegment - st.separatingAxisCapsuleSpace.smul capsuleRadius
    { collide := true
      contacts := [{ normalWorld := normalWorld, penetrationDepth := st.minPenetrationDepth,
                     localPoint1 := if isCapsuleShape1 then contactPointCapsule
                       else closestPointPolyhedronEdge,
                     localPoint2 := if isCapsuleShape1 then closestPointPolyhedronEdge
                       else contactPointCapsule }]
      lastFrame := { lf with satIsAxisFacePolyhedron1 := false,
                             satMinEdge1Index := st.minEdgeIndex }
      writes := [.wIsAxisFace1, .wEdge1] }

/-- The end-points of the inner segment of the capsule (source lines
199–201): `capsuleSegA`, `capsuleSegB`. -/
def capsuleSegAOf (capsuleShape : CapsuleShape) : Vector3 :=
  ⟨0, -(capsuleShape.height * (1/2)), 0⟩

/-- The upper end-point of the capsule inner segment. -/
def capsuleSegBOf (capsuleShape : CapsuleShape) : Vector3 :=
  ⟨0, capsuleShape.height * (1/2), 0⟩

/-- `capsuleSegmentAxis = capsuleSegB - capsuleSegA` (source line 201). -/
def capsuleSegmentAxisOf (capsuleShape : CapsuleShape) : Vector3 :=
  capsuleSegBOf capsuleShape - capsuleSegAOf capsuleShape

/-- Body of the capsule driver after the prologue. -/
def capsuleCore (sq : Decimal → Decimal) (isCapsuleShape1 : Bool)
    (capsuleShape : CapsuleShape) (polyhedron : ConvexPolyhedronShape)
    (capsuleToWorld polyhedronToCapsuleTransform : Transform)
    (lf : LastFrameCollisionInfo) : SATResult :=
  match capsuleTemporal sq polyhedron capsuleShape (capsuleSegmentAxisOf capsuleShape)
    polyhedronToCapsuleTransform lf with
  | .exitNoCollision => { collide := false, contacts := [], lastFrame := lf, writes := [] }
  | .adopt st =>
    capsuleContact isCapsuleShape1 capsuleShape polyhedron capsuleToWorld
      polyhedronToCapsuleTransform (capsuleSegAOf capsuleShape) (capsuleSegBOf capsuleShape) st lf
  | .scan =>
    match capsuleFaceLoop sq polyhedron capsuleShape polyhedronToCapsuleTransform
      (List.range polyhedron.getNbFaces) initCapsuleScanState with
    | .error (.faceSep f) =>
      { collide := false, contacts := [],
        lastFrame := { lf with satIsAxisFacePolyhedron1 := true, satMinAxisFaceIndex := f },
        writes := [.wIsAxisFace1, .wFaceIndex] }
    | .error (.edgeSep e) =>
      { collide := false, contacts := [],
        lastFrame := { lf with satIsAxisFacePolyhedron1 := false, satMinEdge1Index := e },
        writes := [.wIsAxisFace1, .wEdge1] }
    | .ok st1 =>
      match capsuleEdgeLoop sq polyhedron capsuleShape (capsuleSegmentAxisOf capsuleShape)
        polyhedronToCapsuleTransform (evenRange polyhedron.getNbHalfEdges) st1 with
      | .error (.faceSep f) =>
        { collide := false, contacts := [],
          lastFrame := { lf with satIsAxisFacePolyhedron1 := true, satMinAxisFaceIndex := f },
          writes := [.wIsAxisFace1, .wFaceIndex] }
      | .error (.edgeSep e) =>
        { collide := false, contacts := [],
          lastFrame := { lf with satIsAxisFacePolyhedron1 := false, satMinEdge1Index := e },
          writes := [.wIsAxisFace1, .wEdge1] }
      | .ok st2 =>
        capsuleContact isCapsuleShape1 capsuleShape polyhedron capsuleToWorld
          polyhedronToCapsuleTransform (capsuleSegAOf capsuleShape) (capsuleSegBOf capsuleShape)
          st2 lf

/-- `SATAlgorithm::testCollisionCapsuleVsConvexPolyhedron` (source lines
178–422). -/
def testCollisionCapsuleVsConvexPolyhedron (sq : Decimal → Decimal)
    (info : NarrowPhaseInfo) : SATResult :=
  capsuleCore sq (capsuleInputParts info).1 (capsuleInputParts info).2.1
    (capsuleInputParts info).2.2.1 (capsuleInputParts info).2.2.2.1
    (capsuleInputParts info).2.2.2.2.2 info.lastFrameInfo

/-! ## Convex polyhedron vs convex polyhedron driver -/

/-- The mutable locals of the polyhedron driver's axis search (source lines
555–562).  `minSeparatingEdge1Index`/`minSeparatingEdge2Index` are declared
without an initializer in the source; the embedding initializes them (and the
vectors) to zero so that every path is defined. -/
structure PolyScanState where
  minPenetrationDepth : Decimal
  minFaceIndex : Nat
  isMinPenetrationFaceNormal : Bool
  isMinPenetrationFaceNormalPolyhedron1 : Bool
  minSeparatingEdge1Index : Nat
  minSeparatingEdge2Index : Nat
  separatingEdge1A : Vector3
  separatingEdge1B : Vector3
  separatingEdge2A : Vector3
  separatingEdge2B : Vector3
  minEdgeVsEdgeSeparatingAxisPolyhedron2Space : Vector3
deriving DecidableEq

/-- Initial polyhedron scan state. -/
def initPolyScanState : PolyScanState :=
  { minPenetrationDepth := DECIMAL_LARGEST, minFaceIndex := 0,
    isMinPenetrationFaceNormal := false, isMinPenetrationFaceNormalPolyhedron1 := false,
    minSeparatingEdge1Index := 0, minSeparatingEdge2Index := 0,
    separatingEdge1A := default, separatingEdge1B := default,
    separatingEdge2A := default, separatingEdge2B := default,
    minEdgeVsEdgeSeparatingAxisPolyhedron2Space := default }

/-- Early exits of the polyhedron scan, each carrying the indices written to
the last-frame record. -/
inductive PolyEarly
  | face1Sep (f : Nat)
  | face2Sep (f : Nat)
  | edgeSep (i j : Nat)
deriving DecidableEq

/-- Temporal-coherence preamble of the polyhedron driver (source lines
572–674). -/
def polyTemporal (sq : Decimal → Decimal) (polyhedron1 polyhedron2 : ConvexPolyhedronShape)
    (polyhedron1ToPolyhedron2 polyhedron2ToPolyhedron1 : Transform)
    (lf : LastFrameCollisionInfo) : TCOutcome PolyScanState :=
  if polyhedron1.getType ≠ CollisionShapeType.TRIANGLE ∧
      polyhedron2.getType ≠ CollisionShapeType.TRIANGLE then
    if lf.isValid ∧ lf.wasUsingSAT then
      if lf.satIsAxisFacePolyhedron1 then
        let penetrationDepth := testSingleFaceDirectionPolyhedronVsPolyhedron polyhedron1
          polyhedron2 polyhedron1ToPolyhedron2 lf.satMinAxisFaceIndex
        if penetrationDepth ≤ 0 then .exitNoCollision
        else if lf.wasColliding then
          .adopt { initPolyScanState with
            minPenetrationDepth := penetrationDepth, minFaceIndex := lf.satMinAxisFaceIndex,
            isMinPenetrationFaceNormal := true, isMinPenetrationFaceNormalPolyhedron1 := true }
        else .scan
      else if lf.satIsAxisFacePolyhedron2 then
        let penetrationDepth := testSingleFaceDirectionPolyhedronVsPolyhedron polyhedron2
          polyhedron1 polyhedron2ToPolyhedron1 lf.satMinAxisFaceIndex
        if penetrationDepth ≤ 0 then .exitNoCollision
        else if lf.wasColliding then
          .adopt { initPolyScanState with
            minPenetrationDepth := penetrationDepth, minFaceIndex := lf.satMinAxisFaceIndex,
            isMinPenetrationFaceNormal := true, isMinPenetrationFaceNormalPolyhedron1 := false }
        else .scan
      else
        let edge1 := polyhedron1.getHalfEdge lf.satMinEdge1Index
        let edge2 := polyhedron2.getHalfEdge lf.satMinEdge2Index
        let edge1A := polyhedron1ToPolyhedron2.applyV
          (polyhedron1.getVertexPosition edge1.vertexIndex)
        let edge1B := polyhedron1ToPolyhedron2.applyV
          (polyhedron1.getVertexPosition (polyhedron1.getHalfEdge edge1.nextEdgeIndex).vertexIndex)
        let edge1Direction := edge1B - edge1A
        let edge2A := polyhedron2.getVertexPosition edge2.vertexIndex
        let edge2B := polyhedron2.getVertexPosition
          (polyhedron2.getHalfEdge edge2.nextEdgeIndex).vertexIndex
        let edge2Direction := edge2B - edge2A
        let pr := computeDistanceBetweenEdges sq edge1A edge2A polyhedron2.getCentroid
          edge1Direction edge2Direction
        if pr.1 ≤ 0 then .exitNoCollision
        else if lf.wasColliding then
          .adopt { initPolyScanState with
            minPenetrationDepth := pr.1, isMinPenetrationFaceNormal := false,
            isMinPenetrationFaceNormalPolyhedron1 := false,
            minSeparatingEdge1Index := lf.satMinEdge1Index,
            minSeparatingEdge2Index := lf.satMinEdge2Index,
            separatingEdge1A := edge1A, separatingEdge1B := edge1B,
            separatingEdge2A := edge2A, separatingEdge2B := edge2B,
            minEdgeVsEdgeSeparatingAxisPolyhedron2Space := pr.2 }
        else .scan
    else .scan
  else .scan

/-- Inner edge loop of the polyhedron full scan (source lines 727–772): edge
`i` of polyhedron 1 is fixed, `js` ranges over the even half-edge indices of
polyhedron 2. -/
def polyEdgeInner (sq : Decimal → Decimal) (polyhedron1 polyhedron2 : ConvexPolyhedronShape)
    (polyhedron1ToPolyhedron2 : Transform) (i : Nat) (edge1 : HEdge)
    (edge1A edge1B edge1Direction : Vector3) :
    List Nat → PolyScanState → Except PolyEarly PolyScanState
  | [], st => .ok st
  | j :: rest, st =>
    let edge2 := polyhedron2.getHalfEdge j
    let edge2A := polyhedron2.getVertexPosition edge2.vertexIndex
    let edge2B := polyhedron2.getVertexPosition
      (polyhedron2.getHalfEdge edge2.nextEdgeIndex).vertexIndex
    let edge2Direction := edge2B - edge2A
    if testEdgesBuildMinkowskiFace polyhedron1 edge1 polyhedron2 edge2 polyhedron1ToPolyhedron2 then
      let pr := computeDistanceBetweenEdges sq edge1A edge2A polyhedron2.getCentroid
        edge1Direction edge2Direction
      if pr.1 ≤ 0 then .error (.edgeSep i j)
      else if pr.1 < st.minPenetrationDepth - SAME_SEPARATING_AXIS_BIAS then
        polyEdgeInner sq polyhedron1 polyhedron2 polyhedron1ToPolyhedron2 i edge1 edge1A edge1B
          edge1Direction rest
          { st with minPenetrationDepth := pr.1,
                    isMinPenetrationFaceNormalPolyhedron1 := false,
                    isMinPenetrationFaceNormal := false,
                    minSeparatingEdge1Index := i, minSeparatingEdge2Index := j,
                    separatingEdge1A := edge1A, separatingEdge1B := edge1B,
                    separatingEdge2A := edge2A, separatingEdge2B := edge2B,
                    minEdgeVsEdgeSeparatingAxisPolyhedron2Space := pr.2 }
      else polyEdgeInner sq polyhedron1 polyhedron2 polyhedron1ToPolyhedron2 i edge1 edge1A edge1B
        edge1Direction rest st
    else polyEdgeInner sq polyhedron1 polyhedron2 polyhedron1ToPolyhedron2 i edge1 edge1A edge1B
      edge1Direction rest st

/-- Outer edge loop of the polyhedron full scan (source lines 718–773). -/
def polyEdgeOuter (sq : Decimal → Decimal) (polyhedron1 polyhedron2 : ConvexPolyhedronShape)
    (polyhedron1ToPolyhedron2 : Transform) :
    List Nat → PolyScanState → Except PolyEarly PolyScanState
  | [], st => .ok st
  | i :: rest, st =>
    let edge1 := polyhedron1.getHalfEdge i
    let edge1A := polyhedron1ToPolyhedron2.applyV (polyhedron1.getVertexPosition edge1.vertexIndex)
    let edge1B := polyhedron1ToPolyhedron2.applyV
      (polyhedron1.getVertexPosition (polyhedron1.getHalfEdge edge1.nextEdgeIndex).vertexIndex)
    let edge1Direction := edge1B - edge1A
    match polyEdgeInner sq polyhedron1 polyhedron2 polyhedron1ToPolyhedron2 i edge1 edge1A edge1B
      edge1Direction (evenRange polyhedron2.getNbHalfEdges) st with
    | .error e => .error e
    | .ok st2 => polyEdgeOuter sq polyhedron1 polyhedron2 polyhedron1ToPolyhedron2 rest st2

/-- Full scan of the polyhedron driver (source lines 678–774): face normals
of polyhedron 1, face normals of polyhedron 2, then the pruned edge pairs;
each family's winner replaces the incumbent only when it beats it by more
than `SAME_SEPARATING_AXIS_BIAS`. -/
def polyFullScan (sq : Decimal → Decimal) (polyhedron1 polyhedron2 : ConvexPolyhedronShape)
    (polyhedron1ToPolyhedron2 polyhedron2ToPolyhedron1 : Transform) (st : PolyScanState) :
    Except PolyEarly PolyScanState :=
  let r1 := testFacesDirectionPolyhedronVsPolyhedron polyhedron1 polyhedron2
    polyhedron1ToPolyhedron2
  if r1.1 ≤ 0 then .error (.face1Sep r1.2)
  else
    let st1 := if r1.1 < st.minPenetrationDepth - SAME_SEPARATING_AXIS_BIAS then
      { st with isMinPenetrationFaceNormal := true, minPenetrationDepth := r1.1,
                minFaceIndex := r1.2, isMinPenetrationFaceNormalPolyhedron1 := true }
      else st
    let r2 := testFacesDirectionPolyhedronVsPolyhedron polyhedron2 polyhedron1
      polyhedron2ToPolyhedron1
    if r2.1 ≤ 0 then .error (.face2Sep r2.2)
    else
      let st2 := if r2.1 < st1.minPenetrationDepth - SAME_SEPARATING_AXIS_BIAS then
        { st1 with isMinPenetrationFaceNormal := true, minPenetrationDepth := r2.1,
                   minFaceIndex := r2.2, isMinPenetrationFaceNormalPolyhedron1 := false }
        else st1
      polyEdgeOuter sq polyhedron1 polyhedron2 polyhedron1ToPolyhedron2
        (evenRange polyhedron1.getNbHalfEdges) st2

/-- The clipped incident-face vertices of the face-contact branch (source
lines 800–849): lift the incident face into reference space and clip it
against the reference face's adjacent-edge planes. -/
def polyClippedVertices (referencePolyhedron incidentPolyhedron : ConvexPolyhedronShape)
    (referenceToIncidentTransform incidentToReferenceTransform : Transform)
    (minFaceIndex : Nat) : List Vector3 :=
  let axisReferenceSpace := referencePolyhedron.getFaceNormal minFaceIndex
  let axisIncidentSpace := referenceToIncidentTransform.rot.rotate axisReferenceSpace
  let incidentFaceIndex := findMostAntiParallelFaceOnPolyhedron incidentPolyhedron
    axisIncidentSpace
  let incidentFace := incidentPolyhedron.getFace incidentFaceIndex
  let polygonVertices := incidentFace.faceVertices.map
    (fun vi => incidentToReferenceTransform.applyV (incidentPolyhedron.getVertexPosition vi))
  let planes := facePlanes referencePolyhedron true minFaceIndex
  clipPolygonWithPlanes polygonVertices (planes.map Prod.fst) (planes.map Prod.snd)

/-- Contact construction of the polyhedron driver (source lines 776–897). -/
def polyContactPhase (polyhedron1 polyhedron2 : ConvexPolyhedronShape)
    (polyhedron1ToPolyhedron2 polyhedron2ToPolyhedron1 : Transform)
    (shape1ToWorldTransform shape2ToWorldTransform : Transform)
    (lf : LastFrameCollisionInfo) (st : PolyScanState) : SATResult :=
  if st.isMinPenetrationFaceNormal then
    let isP1 := st.isMinPenetrationFaceNormalPolyhedron1
    let referencePolyhedron := if isP1 then polyhedron1 else polyhedron2
    let referenceToIncidentTransform :=
      if isP1 then polyhedron1ToPolyhedron2 else polyhedron2ToPolyhedron1
    let incidentToReferenceTransform :=
      if isP1 then polyhedron2ToPolyhedron1 else polyhedron1ToPolyhedron2
    let incidentPolyhedron := if isP1 then polyhedron2 else polyhedron1
    let axisReferenceSpace := referencePolyhedron.getFaceNormal st.minFaceIndex
    let normalWorld := if isP1 then shape1ToWorldTransform.rot.rotate axisReferenceSpace
      else -(shape2ToWorldTransform.rot.rotate axisReferenceSpace)
    let firstEdgeIndex := (referencePolyhedron.getFace st.minFaceIndex).edgeIndex
    let clipPolygonVertices := polyClippedVertices referencePolyhedron incidentPolyhedron
      referenceToIncidentTransform incidentToReferenceTransform st.minFaceIndex
    let referenceFaceVertex := referencePolyhedron.getVertexPosition firstEdgeIndex
    let kept := clipPolygonVertices.filter
      (fun p => (p - referenceFaceVertex).dot axisReferenceSpace < 0)
    let contacts := kept.map (fun p =>
      let contactPointIncidentPolyhedron := referenceToIncidentTransform.applyV p
      let contactPointReferencePolyhedron := p + axisReferenceSpace.smul st.minPenetrationDepth
      { normalWorld := normalWorld, penetrationDepth := st.minPenetrationDepth,
        localPoint1 := if isP1 then contactPointReferencePolyhedron
          else contactPointIncidentPolyhedron,
        localPoint2 := if isP1 then contactPointIncidentPolyhedron
          else contactPointReferencePolyhedron })
    { collide := true, contacts := contacts
      lastFrame := { lf with satIsAxisFacePolyhedron1 := isP1,
                             satIsAxisFacePolyhedron2 := !isP1,
                             satMinAxisFaceIndex := st.minFaceIndex }
      writes := [.wIsAxisFace1, .wIsAxisFace2, .wFaceIndex] }
  else
    let cps := computeClosestPointBetweenTwoSegments st.separatingEdge1A st.separatingEdge1B
      st.separatingEdge2A st.separatingEdge2B
    let closestPointPolyhedron1Edge := cps.1
    let closestPointPolyhedron2Edge := cps.2
    let closestPointPolyhedron1EdgeLocalSpace :=
      polyhedron2ToPolyhedron1.applyV closestPointPolyhedron1Edge
    let normalWorld := shape2ToWorldTransform.rot.rotate
      st.minEdgeVsEdgeSeparatingAxisPolyhedron2Space
    { collide := true
      contacts := [{ normalWorld := normalWorld, penetrationDepth := st.minPenetrationDepth,
                     localPoint1 := closestPointPolyhedron1EdgeLocalSpace,
                     localPoint2 := closestPointPolyhedron2Edge }]
      lastFrame := { lf with satIsAxisFacePolyhedron1 := false,
                             satIsAxisFacePolyhedron2 := false,
                             satMinEdge1Index := st.minSeparatingEdge1Index,
                             satMinEdge2Index := st.minSeparatingEdge2Index }
      writes := [.wIsAxisFace1, .wIsAxisFace2, .wEdge1, .wEdge2] }

/-- Body of the polyhedron driver after the prologue. -/
def polyCore (sq : Decimal → Decimal) (polyhedron1 polyhedron2 : ConvexPolyhedronShape)
    (polyhedron1ToPolyhedron2 polyhedron2ToPolyhedron1 : Transform)
    (shape1ToWorldTransform shape2ToWorldTransform : Transform)
    (lf : LastFrameCollisionInfo) : SATResult :=
  match polyTemporal sq polyhedron1 polyhedron2 polyhedron1ToPolyhedron2
    polyhedron2ToPolyhedron1 lf with
  | .exitNoCollision => { collide := false, contacts := [], lastFrame := lf, writes := [] }
  | .adopt st =>
    polyContactPhase polyhedron1 polyhedron2 polyhedron1ToPolyhedron2 polyhedron2ToPolyhedron1
      shape1ToWorldTransform shape2ToWorldTransform lf st
  | .scan =>
    match polyFullScan sq polyhedron1 polyhedron2 polyhedron1ToPolyhedron2
      polyhedron2ToPolyhedron1 initPolyScanState with
    | .error (.face1Sep f) =>
      { collide := false, contacts := [],
        lastFrame := { lf with satIsAxisFacePolyhedron1 := true,
                               satIsAxisFacePolyhedron2 := false, satMinAxisFaceIndex := f },
        writes := [.wIsAxisFace1, .wIsAxisFace2, .wFaceIndex] }
    | .error (.face2Sep f) =>
      { collide := false, contacts := [],
        lastFrame := { lf with satIsAxisFacePolyhedron1 := false,
                               satIsAxisFacePolyhedron2 := true, satMinAxisFaceIndex := f },
        writes := [.wIsAxisFace1, .wIsAxisFace2, .wFaceIndex] }
    | .error (.edgeSep i j) =>
      { collide := false, contacts := [],
        lastFrame := { lf with satIsAxisFacePolyhedron1 := false,
                               satIsAxisFacePolyhedron2 := false,
                               satMinEdge1Index := i, satMinEdge2Index := j },
        writes := [.wIsAxisFace1, .wIsAxisFace2, .wEdge1, .wEdge2] }
    | .ok st =>
      polyContactPhase polyhedron1 polyhedron2 polyhedron1ToPolyhedron2 polyhedron2ToPolyhedron1
        shape1ToWorldTransform shape2ToWorldTransform lf st

/-- `SATAlgorithm::testCollisionConvexPolyhedronVsConvexPolyhedron` (source
lines 541–900). -/
def testCollisionConvexPolyhedronVsConvexPolyhedron (sq : Decimal → Decimal)
    (info : NarrowPhaseInfo) : SATResult :=
  polyCore sq info.collisionShape1.asPoly info.collisionShape2.asPoly
    (info.shape2ToWorldTransform.getInverse.comp info.shape1ToWorldTransform)
    (info.shape2ToWorldTransform.getInverse.comp info.shape1ToWorldTransform).getInverse
    info.shape1ToWorldTransform info.shape2ToWorldTransform info.lastFrameInfo

/-! ## Concrete shapes for witnesses and counterexamples

An axis-aligned cube of half-extent `h` with a complete, consistent half-edge
structure (twin-adjacent pairs `(2k, 2k+1)`, CCW faces, outward unit
normals), and a triangle shape with its two faces. -/

/-- Cube vertices `(±h, ±h, ±h)`. -/
def cubeVertices (h : Decimal) : List Vector3 :=
  [⟨-h,-h,-h⟩, ⟨h,-h,-h⟩, ⟨h,h,-h⟩, ⟨-h,h,-h⟩, ⟨-h,-h,h⟩, ⟨h,-h,h⟩, ⟨h,h,h⟩, ⟨-h,h,h⟩]

/-- Cube faces: `+X, -X, +Y, -Y, +Z, -Z` in this order.  Face 0's starting
half-edge is half-edge 0. -/
def cubeFaces : List Face :=
  [⟨[1,2,6,5], 0⟩, ⟨[0,4,7,3], 8⟩, ⟨[2,3,7,6], 16⟩, ⟨[0,1,5,4], 20⟩, ⟨[4,5,6,7], 23⟩,
   ⟨[0,3,2,1], 15⟩]

/-- Cube half-edges `(vertexIndex, nextEdgeIndex, twinEdgeIndex, faceIndex)`,
stored in twin-adjacent pairs. -/
def cubeHalfEdges : List HEdge :=
  [⟨1,2,1,0⟩, ⟨2,21,0,5⟩, ⟨2,4,3,0⟩, ⟨6,16,2,2⟩, ⟨6,6,5,0⟩, ⟨5,19,4,4⟩, ⟨5,0,7,0⟩, ⟨1,22,6,3⟩,
   ⟨0,10,9,1⟩, ⟨4,20,8,3⟩, ⟨4,12,11,1⟩, ⟨7,23,10,4⟩, ⟨7,14,13,1⟩, ⟨3,18,12,2⟩, ⟨3,8,15,1⟩,
   ⟨0,17,14,5⟩, ⟨2,13,17,2⟩, ⟨3,1,16,5⟩, ⟨7,3,19,2⟩, ⟨6,11,18,4⟩, ⟨0,7,21,3⟩, ⟨1,15,20,5⟩,
   ⟨5,9,23,3⟩, ⟨4,5,22,4⟩]

/-- Outward unit normals of the cube faces. -/
def cubeNormals : List Vector3 :=
  [⟨1,0,0⟩, ⟨-1,0,0⟩, ⟨0,1,0⟩, ⟨0,-1,0⟩, ⟨0,0,1⟩, ⟨0,0,-1⟩]

/-- The cube mesh of half-extent `h`. -/
def cubeMesh (h : Decimal) : Mesh :=
  ⟨cubeVertices h, cubeFaces, cubeHalfEdges, cubeNormals, ⟨0,0,0⟩⟩

/-- The cube collision shape of half-extent `h`. -/
def cubeShape (h : Decimal) : ConvexPolyhedronShape := ⟨.CONVEX_POLYHEDRON, cubeMesh h⟩

/-- Unit-half-extent cube. -/
def cube1 : ConvexPolyhedronShape := cubeShape 1

/-- Triangle mesh: vertices `(0,0,0)`, `(2,0,0)`, `(0,2,0)` with a front face
(normal `+Z`) and a back face (normal `-Z`). -/
def triMesh : Mesh :=
  ⟨[⟨0,0,0⟩, ⟨2,0,0⟩, ⟨0,2,0⟩],
   [⟨[0,1,2], 0⟩, ⟨[0,2,1], 5⟩],
   [⟨0,2,1,0⟩, ⟨1,5,0,1⟩, ⟨1,4,3,0⟩, ⟨2,1,2,1⟩, ⟨2,0,5,0⟩, ⟨0,3,4,1⟩],
   [⟨0,0,1⟩, ⟨0,0,-1⟩],
   ⟨2/3, 2/3, 0⟩⟩

/-- The triangle as a polyhedron shape with the `TRIANGLE` type tag. -/
def triShape : ConvexPolyhedronShape := ⟨.TRIANGLE, triMesh⟩

/-- A last-frame record that has never been populated. -/
def lfInvalid : LastFrameCollisionInfo :=
  ⟨false, false, false, false, false, 0, 0, 0⟩

/-- A valid last-frame record from a colliding SAT frame whose cached axis is
the face of index 0 of polyhedron 1. -/
def lfCachedFace0 : LastFrameCollisionInfo :=
  ⟨true, true, true, false, false, 0, 0, 0⟩

/-! ## Concrete narrow-phase inputs -/

/-- Two unit cubes with identity orientations, the second translated by `+1`
along X, so they overlap by depth 1 across the first cube's `+X` face. -/
def cubePairInput : NarrowPhaseInfo :=
  { collisionShape1 := .polyS cube1, collisionShape2 := .polyS cube1,
    shape1ToWorldTransform := Transform.identity,
    shape2ToWorldTransform := ⟨Rot3.id, ⟨1,0,0⟩⟩,
    lastFrameInfo := lfInvalid }

/-- The polyhedron-1-to-polyhedron-2 transform of `cubePairInput`. -/
def cubePairT12 : Transform :=
  cubePairInput.shape2ToWorldTransform.getInverse.comp cubePairInput.shape1ToWorldTransform

/-- Half-extent chosen so that the coincident-cube face depth `2·h` equals
`DECIMAL_LARGEST − SAME_SEPARATING_AXIS_BIAS` exactly. -/
def bigHalfExtent : Decimal := (DECIMAL_LARGEST - 1/1000) / 2

/-- Two coincident huge cubes: every face probe yields the positive depth
`DECIMAL_LARGEST − 1/1000`, which the biased seeding comparison rejects. -/
def coincidentBigCubesInput : NarrowPhaseInfo :=
  { collisionShape1 := .polyS (cubeShape bigHalfExtent),
    collisionShape2 := .polyS (cubeShape bigHalfExtent),
    shape1ToWorldTransform := Transform.identity,
    shape2ToWorldTransform := Transform.identity,
    lastFrameInfo := lfInvalid }

/-- A radius-1 sphere centered inside the unit cube. -/
def sphereInCubeInput : NarrowPhaseInfo :=
  { collisionShape1 := .sphereS ⟨1⟩, collisionShape2 := .polyS cube1,
    shape1ToWorldTransform := Transform.identity,
    shape2ToWorldTransform := Transform.identity,
    lastFrameInfo := lfInvalid }

/-- A radius-1 sphere translated to `(5,0,0)`, well beyond the cube's `+X`
face, with the `+X` face cached as last frame's separating axis. -/
def sphereFarInput : NarrowPhaseInfo :=
  { collisionShape1 := .sphereS ⟨1⟩, collisionShape2 := .polyS cube1,
    shape1ToWorldTransform := ⟨Rot3.id, ⟨5,0,0⟩⟩,
    shape2ToWorldTransform := Transform.identity,
    lastFrameInfo := lfCachedFace0 }

/-- A radius-1 sphere centered on the plane of the triangle shape, with a
last-frame record whose `satMinAxisFaceIndex` is 7. -/
def sphereTriangleInput : NarrowPhaseInfo :=
  { collisionShape1 := .sphereS ⟨1⟩, collisionShape2 := .polyS triShape,
    shape1ToWorldTransform := Transform.identity,
    shape2ToWorldTransform := Transform.identity,
    lastFrameInfo := ⟨true, true, true, false, false, 7, 0, 0⟩ }

/-- A radius-1, height-2 capsule centered in the unit cube, with an incoming
record in which only `satIsAxisFacePolyhedron2` is set. -/
def capsuleFlag2Input : NarrowPhaseInfo :=
  { collisionShape1 := .capsuleS ⟨1, 2⟩, collisionShape2 := .polyS cube1,
    shape1ToWorldTransform := Transform.identity,
    shape2ToWorldTransform := Transform.identity,
    lastFrameInfo := ⟨false, false, false, false, true, 0, 0, 0⟩ }

/-- The same capsule-in-cube configuration with even cached edge indices. -/
def capsuleEvenInput : NarrowPhaseInfo :=
  { collisionShape1 := .capsuleS ⟨1, 2⟩, collisionShape2 := .polyS cube1,
    shape1ToWorldTransform := Transform.identity,
    shape2ToWorldTransform := Transform.identity,
    lastFrameInfo := ⟨false, false, false, false, false, 0, 4, 6⟩ }

/-! ## C6 — the edge-pair Gauss-map predicate -/

/-- The predicate C6 claims `testEdgesBuildMinkowskiFace` computes: `a`, `b`
are the adjacent-face outward normals of edge 1 expressed in polyhedron 2's
frame (i.e. rotated), `c`, `d` the negated adjacent-face outward normals of
edge 2, `BxA` the direction of edge 1 in polyhedron 2's frame, `DxC` the
direction of edge 2. -/
def edgesBuildMinkowskiFaceClaim (polyhedron1 : ConvexPolyhedronShape) (edge1 : HEdge)
    (polyhedron2 : ConvexPolyhedronShape) (edge2 : HEdge)
    (polyhedron1ToPolyhedron2 : Transform) : Prop :=
  let a := polyhedron1ToPolyhedron2.rot.rotate (polyhedron1.getFaceNormal edge1.faceIndex)
  let b := polyhedron1ToPolyhedron2.rot.rotate
    (polyhedron1.getFaceNormal (polyhedron1.getHalfEdge edge1.twinEdgeIndex).faceIndex)
  let c := -(polyhedron2.getFaceNormal edge2.faceIndex)
  let d := -(polyhedron2.getFaceNormal (polyhedron2.getHalfEdge edge2.twinEdgeIndex).faceIndex)
  let bxa := polyhedron1ToPolyhedron2.rot.rotate
    (polyhedron1.getVertexPosition (polyhedron1.getHalfEdge edge1.twinEdgeIndex).vertexIndex -
      polyhedron1.getVertexPosition edge1.vertexIndex)
  let dxc := polyhedron2.getVertexPosition (polyhedron2.getHalfEdge edge2.twinEdgeIndex).vertexIndex -
    polyhedron2.getVertexPosition edge2.vertexIndex
  c.dot bxa * d.dot bxa < 0 ∧ a.dot dxc * b.dot dxc < 0 ∧ c.dot bxa * b.dot dxc > 0

instance (p1 : ConvexPolyhedronShape) (e1 : HEdge) (p2 : ConvexPolyhedronShape) (e2 : HEdge)
    (t : Transform) : Decidable (edgesBuildMinkowskiFaceClaim p1 e1 p2 e2 t) := by
  unfold edgesBuildMinkowskiFaceClaim; infer_instance

/-- A single-edge mesh stub for polyhedron 1: edge 0 runs along `+Z`, its two
adjacent faces have normals `±X`. -/
def edgeMesh1 : Mesh :=
  ⟨[⟨0,0,0⟩, ⟨0,0,1⟩],
   [⟨[0,1], 0⟩, ⟨[1,0], 1⟩],
   [⟨0,0,1,0⟩, ⟨1,0,0,1⟩],
   [⟨1,0,0⟩, ⟨-1,0,0⟩],
   ⟨0,0,0⟩⟩

/-- A single-edge mesh stub for polyhedron 2: edge 0 runs along `+X`, its two
adjacent faces have normals `±Z`. -/
def edgeMesh2 : Mesh :=
  ⟨[⟨0,0,0⟩, ⟨1,0,0⟩],
   [⟨[0,1], 0⟩, ⟨[1,0], 1⟩],
   [⟨0,0,1,0⟩, ⟨1,0,0,1⟩],
   [⟨0,0,1⟩, ⟨0,0,-1⟩],
   ⟨0,0,0⟩⟩

/-- Polyhedron shapes over the two edge stubs. -/
def edgePoly1 : ConvexPolyhedronShape := ⟨.CONVEX_POLYHEDRON, edgeMesh1⟩

def edgePoly2 : ConvexPolyhedronShape := ⟨.CONVEX_POLYHEDRON, edgeMesh2⟩

/-- An identity rotation with translation `(10,0,0)`. -/
def translate10 : Transform := ⟨Rot3.id, ⟨10,0,0⟩⟩

/-! ## C9 — degenerate axes are declined with `DECIMAL_LARGEST` -/

/-- C9: the per-edge penetration probes decline degenerate axes by returning
`DECIMAL_LARGEST`: `computeEdgeVsCapsuleInnerSegmentPenetrationDepth` does so
whenever the cross product of the capsule segment and the edge direction has
squared length below `1e-5`, and `computeDistanceBetweenEdges` does so
whenever the two edge directions are parallel; and a `DECIMAL_LARGEST` probe
value can never win a minimum-tracking comparison against any incumbent that
is at most `DECIMAL_LARGEST`, biased or not. -/
theorem C9_degenerate_axes :
    (∀ (sq : Decimal → Decimal) (capsule : CapsuleShape)
      (capsuleSegmentAxis edgeVertex1 edgeDirectionCapsuleSpace : Vector3)
      (polyhedron : ConvexPolyhedronShape) (t : Transform),
      (capsuleSegmentAxis.cross edgeDirectionCapsuleSpace).lengthSquare < 1 / 100000 →
      (computeEdgeVsCapsuleInnerSegmentPenetrationDepth sq capsule capsuleSegmentAxis
        edgeVertex1 edgeDirectionCapsuleSpace polyhedron t).1 = DECIMAL_LARGEST) ∧
    (∀ (sq : Decimal → Decimal) (edge1A edge2A polyhedron2Centroid
      edge1Direction edge2Direction : Vector3),
      areParallelVectors edge1Direction edge2Direction →
      (computeDistanceBetweenEdges sq edge1A edge2A polyhedron2Centroid edge1Direction
        edge2Direction).1 = DECIMAL_LARGEST) ∧
    (∀ m : Decimal, m ≤ DECIMAL_LARGEST →
      ¬ DECIMAL_LARGEST < m ∧ ¬ DECIMAL_LARGEST < m - SAME_SEPARATING_AXIS_BIAS) := by
  refine ⟨?_, ?_, ?_⟩
  · intro sq capsule ax v1 dir poly t h
    unfold computeEdgeVsCapsuleInnerSegmentPenetrationDepth
    rw [if_neg (by exact not_le.mpr h)]
  · intro sq e1A e2A ctr d1 d2 h
    unfold computeDistanceBetweenEdges
    rw [if_pos h]
  · intro m hm
    have hb : (0 : Decimal) < SAME_SEPARATING_AXIS_BIAS := by norm_num [SAME_SEPARATING_AXIS_BIAS]
    constructor
    · exact not_lt.mpr hm
    · exact not_lt.mpr (by linarith)

unseal Rat.add Rat.mul Rat.inv Rat.sub in
/-- Closed instance of `C9_degenerate_axes`: a polyhedron edge parallel to
the capsule axis, a pair of parallel polyhedron edges, and the incumbent 5. -/
theorem C9_witness :
    (computeEdgeVsCapsuleInnerSegmentPenetrationDepth ratSqrt ⟨1, 2⟩ ⟨0,2,0⟩ ⟨1,1,1⟩ ⟨0,1,0⟩
      cube1 Transform.identity).1 = DECIMAL_LARGEST ∧
    (computeDistanceBetweenEdges ratSqrt ⟨0,0,0⟩ ⟨1,1,1⟩ ⟨0,0,0⟩ ⟨1,0,0⟩ ⟨2,0,0⟩).1 =
      DECIMAL_LARGEST ∧
    (¬ DECIMAL_LARGEST < (5 : Decimal) ∧
      ¬ DECIMAL_LARGEST < (5 : Decimal) - SAME_SEPARATING_AXIS_BIAS) :=
  ⟨C9_degenerate_axes.1 ratSqrt ⟨1, 2⟩ ⟨0,2,0⟩ ⟨1,1,1⟩ ⟨0,1,0⟩ cube1 Transform.identity
    (by decide),
   C9_degenerate_axes.2.1 ratSqrt ⟨0,0,0⟩ ⟨1,1,1⟩ ⟨0,0,0⟩ ⟨1,0,0⟩ ⟨2,0,0⟩ (by decide),
   C9_degenerate_axes.2.2 5 (by decide)⟩

/-! ## The temporal-coherence separating exits, as input predicates -/

/-- The sphere call exits through the temporal-coherence path with the cached
axis still separating (source lines 98–102). -/
def sphereTemporalSepExit (info : NarrowPhaseInfo) : Prop :=
  sphereTemporal (sphereInputParts info).2.2.1 (sphereInputParts info).2.1
    (sphereInputParts info).2.2.2.2.2 info.lastFrameInfo = .exitNoCollision

/-- The capsule call exits through the temporal-coherence path with the
cached axis still separating (source lines 240–244 and 276–280). -/
def capsuleTemporalSepExit (sq : Decimal → Decimal) (info : NarrowPhaseInfo) : Prop :=
  capsuleTemporal sq (capsuleInputParts info).2.2.1 (capsuleInputParts info).2.1
    (capsuleSegmentAxisOf (capsuleInputParts info).2.1)
    (capsuleInputParts info).2.2.2.2.2 info.lastFrameInfo = .exitNoCollision

/-- The polyhedron call exits through the temporal-coherence path with the
cached axis still separating (source lines 588–592, 612–616, 649–653). -/
def polyTemporalSepExit (sq : Decimal → Decimal) (info : NarrowPhaseInfo) : Prop :=
  polyTemporal sq info.collisionShape1.asPoly info.collisionShape2.asPoly
    (info.shape2ToWorldTransform.getInverse.comp info.shape1ToWorldTransform)
    (info.shape2ToWorldTransform.getInverse.comp info.shape1ToWorldTransform).getInverse
    info.lastFrameInfo = .exitNoCollision

set_option maxRecDepth 1000000

/-! ## Driver case-analysis lemmas: sphere -/

theorem sphereContact_collide (a : Bool) (s : SphereShape) (p : ConvexPolyhedronShape)
    (t1 t2 : Transform) (c : Vector3) (d : Decimal) (i : Nat) (lf : LastFrameCollisionInfo) :
    (sphereContact a s p t1 t2 c d i lf).collide = true ∧
    (sphereContact a s p t1 t2 c d i lf).contacts.length = 1 ∧
    (∀ cp ∈ (sphereContact a s p t1 t2 c d i lf).contacts, cp.penetrationDepth = d) ∧
    (sphereContact a s p t1 t2 c d i lf).lastFrame =
      { lf with satMinAxisFaceIndex := i } ∧
    (sphereContact a s p t1 t2 c d i lf).writes = [.wFaceIndex] := by
  unfold sphereContact
  refine ⟨rfl, rfl, ?_, rfl, rfl⟩
  intro cp hcp
  simp only [List.mem_singleton] at hcp
  subst hcp
  rfl

theorem sphereTemporal_adopt_pos (p : ConvexPolyhedronShape) (s : SphereShape) (c : Vector3)
    (lf : LastFrameCollisionInfo) (d : Decimal) (i : Nat)
    (h : sphereTemporal p s c lf = .adopt (d, i)) : 0 < d := by
  simp only [sphereTemporal] at h
  split_ifs at h with h1 h2 h3 h4
  all_goals simp_all
  obtain ⟨hd, hi⟩ := h
  subst hi
  subst hd
  exact h3

theorem sphereFaceScanGo_pos (p : ConvexPolyhedronShape) (s : SphereShape) (c : Vector3) :
    ∀ (l : List Nat) (d0 : Decimal) (i0 : Nat) (d : Decimal) (i : Nat), 0 < d0 →
    sphereFaceScanGo p s c l d0 i0 = .ok (d, i) → 0 < d := by
  intro l
  induction l with
  | nil =>
    intro d0 i0 d i h0 heq
    simp only [sphereFaceScanGo, Except.ok.injEq, Prod.mk.injEq] at heq
    obtain ⟨hd, _⟩ := heq
    exact hd ▸ h0
  | cons f rest ih =>
    intro d0 i0 d i h0 heq
    simp only [sphereFaceScanGo] at heq
    split_ifs at heq with h1 h2
    · exact ih _ _ d i (lt_of_not_le h1) heq
    · exact ih _ _ d i h0 heq

theorem sphereCore_shape (a : Bool) (s : SphereShape) (p : ConvexPolyhedronShape)
    (t1 t2 : Transform) (c : Vector3) (lf : LastFrameCollisionInfo) :
    ((sphereCore a s p t1 t2 c lf).collide = true ↔
      (sphereCore a s p t1 t2 c lf).contacts ≠ []) ∧
    ((sphereCore a s p t1 t2 c lf).writes = [] ↔
      sphereTemporal p s c lf = .exitNoCollision) ∧
    (∀ cp ∈ (sphereCore a s p t1 t2 c lf).contacts, 0 < cp.penetrationDepth) ∧
    (∃ k, (sphereCore a s p t1 t2 c lf).lastFrame = { lf with satMinAxisFaceIndex := k }) ∧
    (∀ w ∈ (sphereCore a s p t1 t2 c lf).writes, w = LFW.wFaceIndex) := by
  unfold sphereCore
  cases htc : sphereTemporal p s c lf with
  | exitNoCollision =>
    refine ⟨by simp, by simp, by simp, ⟨lf.satMinAxisFaceIndex, rfl⟩, by simp⟩
  | adopt x =>
    obtain ⟨d, i⟩ := x
    obtain ⟨h1, h2, h3, h4, h5⟩ := sphereContact_collide a s p t1 t2 c d i lf
    have hd : 0 < d := sphereTemporal_adopt_pos p s c lf d i htc
    refine ⟨?_, ?_, ?_, ⟨i, h4⟩, ?_⟩
    · simp only [h1, true_iff]
      intro hc
      rw [hc] at h2
      simp at h2
    · rw [h5]
      simp
    · intro cp hcp
      rw [h3 cp hcp]
      exact hd
    · intro w hw
      rw [h5] at hw
      simp only [List.mem_singleton] at hw
      exact hw
  | scan =>
    cases hsc : sphereFaceScanGo p s c (List.range p.getNbFaces) DECIMAL_LARGEST 0 with
    | error f =>
      refine ⟨by simp, by simp, by simp, ⟨f, rfl⟩, by simp⟩
    | ok y =>
      obtain ⟨d, i⟩ := y
      obtain ⟨h1, h2, h3, h4, h5⟩ := sphereContact_collide a s p t1 t2 c d i lf
      have hd : 0 < d := sphereFaceScanGo_pos p s c _ _ _ d i
        (by norm_num [DECIMAL_LARGEST]) hsc
      refine ⟨?_, ?_, ?_, ⟨i, h4⟩, ?_⟩
      · simp only [h1, true_iff]
        intro hc
        rw [hc] at h2
        simp at h2
      · rw [h5]
        simp
      · intro cp hcp
        rw [h3 cp hcp]
        exact hd
      · intro w hw
        rw [h5] at hw
        simp only [List.mem_singleton] at hw
        exact hw

/-! ## Driver case-analysis lemmas: capsule -/

theorem evenRange_mod {n e : Nat} (h : e ∈ evenRange n) : e % 2 = 0 := by
  unfold evenRange at h
  rw [List.mem_filter] at h
  exact of_decide_eq_true h.2

theorem capsuleFaceLoop_ok (sq : Decimal → Decimal) (p : ConvexPolyhedronShape)
    (c : CapsuleShape) (t : Transform) : ∀ (l : List Nat) (st st' : CapsuleScanState),
    capsuleFaceLoop sq p c t l st = .ok st' →
    (0 < st.minPenetrationDepth → 0 < st'.minPenetrationDepth) ∧
    st'.minEdgeIndex = st.minEdgeIndex := by
  intro l
  induction l with
  | nil =>
    intro st st' heq
    simp only [capsuleFaceLoop, Except.ok.injEq] at heq
    subst heq
    exact ⟨id, rfl⟩
  | cons f rest ih =>
    intro st st' heq
    simp only [capsuleFaceLoop] at heq
    split_ifs at heq with h1 h2
    · obtain ⟨hpos, hedge⟩ := ih _ _ heq
      exact ⟨fun _ => hpos (lt_of_not_le h1), hedge⟩
    · exact ih _ _ heq

theorem capsuleFaceLoop_err (sq : Decimal → Decimal) (p : ConvexPolyhedronShape)
    (c : CapsuleShape) (t : Transform) : ∀ (l : List Nat) (st : CapsuleScanState)
    (x : CapsuleEarly), capsuleFaceLoop sq p c t l st = .error x → ∃ f, x = .faceSep f := by
  intro l
  induction l with
  | nil =>
    intro st x heq
    simp only [capsuleFaceLoop] at heq
    exact Except.noConfusion heq
  | cons f rest ih =>
    intro st x heq
    simp only [capsuleFaceLoop] at heq
    split_ifs at heq with h1 h2
    · simp only [Except.error.injEq] at heq
      exact ⟨f, heq.symm⟩
    · exact ih _ _ heq
    · exact ih _ _ heq

theorem capsuleEdgeLoop_ok (sq : Decimal → Decimal) (p : ConvexPolyhedronShape)
    (c : CapsuleShape) (ax : Vector3) (t : Transform) : ∀ (l : List Nat)
    (st st' : CapsuleScanState), capsuleEdgeLoop sq p c ax t l st = .ok st' →
    (∀ e ∈ l, e % 2 = 0) →
    (0 < st.minPenetrationDepth → 0 < st'.minPenetrationDepth) ∧
    (st.minEdgeIndex % 2 = 0 → st'.minEdgeIndex % 2 = 0) := by
  intro l
  induction l with
  | nil =>
    intro st st' heq _
    simp only [capsuleEdgeLoop, Except.ok.injEq] at heq
    subst heq
    exact ⟨id, id⟩
  | cons e rest ih =>
    intro st st' heq hl
    simp only [capsuleEdgeLoop] at heq
    split_ifs at heq with h1 h2 h3
    · obtain ⟨hpos, hedge⟩ := ih _ _ heq (fun x hx => hl x (List.mem_cons_of_mem _ hx))
      refine ⟨fun _ => hpos (lt_of_not_le h2), fun _ => hedge ?_⟩
      exact hl e (List.mem_cons_self _ _)
    · exact ih _ _ heq (fun x hx => hl x (List.mem_cons_of_mem _ hx))
    · exact ih _ _ heq (fun x hx => hl x (List.mem_cons_of_mem _ hx))

theorem capsuleEdgeLoop_err (sq : Decimal → Decimal) (p : ConvexPolyhedronShape)
    (c : CapsuleShape) (ax : Vector3) (t : Transform) : ∀ (l : List Nat)
    (st : CapsuleScanState) (x : CapsuleEarly), capsuleEdgeLoop sq p c ax t l st = .error x →
    (∀ e ∈ l, e % 2 = 0) → ∃ e, x = .edgeSep e ∧ e % 2 = 0 := by
  intro l
  induction l with
  | nil =>
    intro st x heq _
    simp only [capsuleEdgeLoop] at heq
    exact Except.noConfusion heq
  | cons e rest ih =>
    intro st x heq hl
    simp only [capsuleEdgeLoop] at heq
    split_ifs at heq with h1 h2 h3
    · simp only [Except.error.injEq] at heq
      exact ⟨e, heq.symm, hl e (List.mem_cons_self _ _)⟩
    · exact ih _ _ heq (fun y hy => hl y (List.mem_cons_of_mem _ hy))
    · exact ih _ _ heq (fun y hy => hl y (List.mem_cons_of_mem _ hy))
    · exact ih _ _ heq (fun y hy => hl y (List.mem_cons_of_mem _ hy))

theorem capsuleTemporal_adopt (sq : Decimal → Decimal) (p : ConvexPolyhedronShape)
    (c : CapsuleShape) (ax : Vector3) (t : Transform) (lf : LastFrameCollisionInfo)
    (st : CapsuleScanState) (h : capsuleTemporal sq p c ax t lf = .adopt st) :
    0 < st.minPenetrationDepth ∧
    (st.minEdgeIndex = lf.satMinEdge1Index ∨ st.minEdgeIndex = 0) := by
  simp only [capsuleTemporal] at h
  split_ifs at h with h1 h2 h3 h4 h5 h6 h7
  all_goals simp_all
  · subst h
    exact ⟨h4, Or.inr rfl⟩
  · subst h
    exact ⟨h6, Or.inl rfl⟩

theorem capsuleContact_shape (a : Bool) (c : CapsuleShape) (p : ConvexPolyhedronShape)
    (t1 t2 : Transform) (sa sb : Vector3) (st : CapsuleScanState)
    (lf : LastFrameCollisionInfo) :
    (capsuleContact a c p t1 t2 sa sb st lf).collide = true ∧
    (capsuleContact a c p t1 t2 sa sb st lf).contacts ≠ [] ∧
    (∀ cp ∈ (capsuleContact a c p t1 t2 sa sb st lf).contacts,
      cp.penetrationDepth = st.minPenetrationDepth) ∧
    (capsuleContact a c p t1 t2 sa sb st lf).lastFrame.satIsAxisFacePolyhedron2 =
      lf.satIsAxisFacePolyhedron2 ∧
    (capsuleContact a c p t1 t2 sa sb st lf).lastFrame.satMinEdge2Index = lf.satMinEdge2Index ∧
    ((capsuleContact a c p t1 t2 sa sb st lf).lastFrame.satMinEdge1Index = lf.satMinEdge1Index ∨
      (capsuleContact a c p t1 t2 sa sb st lf).lastFrame.satMinEdge1Index = st.minEdgeIndex) ∧
    (capsuleContact a c p t1 t2 sa sb st lf).writes ≠ [] := by
  unfold capsuleContact
  split_ifs with hb ha
  · refine ⟨rfl, ?_, ?_, rfl, rfl, Or.inl rfl, by simp⟩
    · simp [computeCapsulePolyhedronFaceContactPoints]
    · intro cp hcp
      simp only [computeCapsulePolyhedronFaceContactPoints, List.mem_cons,
        List.mem_singleton, List.not_mem_nil, or_false] at hcp
      rcases hcp with h | h
      all_goals (subst h; rfl)
  all_goals refine ⟨rfl, by simp, ?_, rfl, rfl, Or.inr rfl, by simp⟩
  all_goals intro cp hcp
  all_goals simp only [List.mem_singleton] at hcp
  all_goals subst hcp
  all_goals rfl

theorem capsuleCore_shape (sq : Decimal → Decimal) (a : Bool) (c : CapsuleShape)
    (p : ConvexPolyhedronShape) (t1 t2 : Transform) (lf : LastFrameCollisionInfo) :
    ((capsuleCore sq a c p t1 t2 lf).collide = true ↔
      (capsuleCore sq a c p t1 t2 lf).contacts ≠ []) ∧
    ((capsuleCore sq a c p t1 t2 lf).writes = [] ↔
      capsuleTemporal sq p c (capsuleSegmentAxisOf c) t2 lf = .exitNoCollision) ∧
    (∀ cp ∈ (capsuleCore sq a c p t1 t2 lf).contacts, 0 < cp.penetrationDepth) ∧
    (capsuleCore sq a c p t1 t2 lf).lastFrame.satIsAxisFacePolyhedron2 =
      lf.satIsAxisFacePolyhedron2 ∧
    (capsuleCore sq a c p t1 t2 lf).lastFrame.satMinEdge2Index = lf.satMinEdge2Index ∧
    (lf.satMinEdge1Index % 2 = 0 →
      (capsuleCore sq a c p t1 t2 lf).lastFrame.satMinEdge1Index % 2 = 0) := by
  unfold capsuleCore
  cases htc : capsuleTemporal sq p c (capsuleSegmentAxisOf c) t2 lf with
  | exitNoCollision => simp
  | adopt st =>
    dsimp only
    obtain ⟨hpos, hedge⟩ := capsuleTemporal_adopt sq p c _ t2 lf st htc
    obtain ⟨h1, h2, h3, h4, h5, h6, h7⟩ := capsuleContact_shape a c p t1 t2
      (capsuleSegAOf c) (capsuleSegBOf c) st lf
    refine ⟨iff_of_true h1 h2, iff_of_false h7 (by simp), ?_, h4, h5, ?_⟩
    · intro cp hcp
      rw [h3 cp hcp]
      exact hpos
    · intro heven
      rcases h6 with h | h
      · rw [h]; exact heven
      · rw [h]
        rcases hedge with he | he
        · rw [he]; exact heven
        · rw [he]
  | scan =>
    dsimp only
    cases hsc : capsuleFaceLoop sq p c t2 (List.range p.getNbFaces) initCapsuleScanState with
    | error x =>
      obtain ⟨f, rfl⟩ := capsuleFaceLoop_err sq p c t2 _ _ _ hsc
      simp
    | ok st1 =>
      dsimp only
      obtain ⟨hpos1, hedge1⟩ := capsuleFaceLoop_ok sq p c t2 _ _ _ hsc
      cases hec : capsuleEdgeLoop sq p c (capsuleSegmentAxisOf c) t2
          (evenRange p.getNbHalfEdges) st1 with
      | error x =>
        obtain ⟨e, rfl, he⟩ := capsuleEdgeLoop_err sq p c _ t2 _ _ _ hec
          (fun y hy => evenRange_mod hy)
        simp [he]
      | ok st2 =>
        dsimp only
        obtain ⟨hpos2, hedge2⟩ := capsuleEdgeLoop_ok sq p c _ t2 _ _ _ hec
          (fun y hy => evenRange_mod hy)
        obtain ⟨h1, h2, h3, h4, h5, h6, h7⟩ := capsuleContact_shape a c p t1 t2
          (capsuleSegAOf c) (capsuleSegBOf c) st2 lf
        have hst2pos : 0 < st2.minPenetrationDepth := by
          apply hpos2
          apply hpos1
          norm_num [initCapsuleScanState, DECIMAL_LARGEST]
        have hst2even : st2.minEdgeIndex % 2 = 0 := by
          apply hedge2
          rw [hedge1]
          rfl
        refine ⟨iff_of_true h1 h2, iff_of_false h7 (by simp), ?_, h4, h5, ?_⟩
        · intro cp hcp
          rw [h3 cp hcp]
          exact hst2pos
        · intro heven
          rcases h6 with h | h
          · rw [h]; exact heven
          · rw [h]; exact hst2even

/-! ## Driver case-analysis lemmas: polyhedron vs polyhedron -/

theorem polyContactPhase_shape (p1 p2 : ConvexPolyhedronShape) (t12 t21 s1 s2 : Transform)
    (lf : LastFrameCollisionInfo) (st : PolyScanState) :
    (polyContactPhase p1 p2 t12 t21 s1 s2 lf st).collide = true ∧
    (∀ cp ∈ (polyContactPhase p1 p2 t12 t21 s1 s2 lf st).contacts,
      cp.penetrationDepth = st.minPenetrationDepth) ∧
    ((polyContactPhase p1 p2 t12 t21 s1 s2 lf st).lastFrame.satIsAxisFacePolyhedron1 = false ∨
      (polyContactPhase p1 p2 t12 t21 s1 s2 lf st).lastFrame.satIsAxisFacePolyhedron2 = false) ∧
    (((polyContactPhase p1 p2 t12 t21 s1 s2 lf st).lastFrame.satMinEdge1Index =
        lf.satMinEdge1Index ∧
      (polyContactPhase p1 p2 t12 t21 s1 s2 lf st).lastFrame.satMinEdge2Index =
        lf.satMinEdge2Index) ∨
     ((polyContactPhase p1 p2 t12 t21 s1 s2 lf st).lastFrame.satMinEdge1Index =
        st.minSeparatingEdge1Index ∧
      (polyContactPhase p1 p2 t12 t21 s1 s2 lf st).lastFrame.satMinEdge2Index =
        st.minSeparatingEdge2Index)) ∧
    (polyContactPhase p1 p2 t12 t21 s1 s2 lf st).writes ≠ [] := by
  unfold polyContactPhase
  split_ifs with hb
  · refine ⟨rfl, ?_, ?_, Or.inl ⟨rfl, rfl⟩, by simp⟩
    · intro cp hcp
      simp only [List.mem_map] at hcp
      obtain ⟨q, _, hq⟩ := hcp
      rw [← hq]
    · cases hp : st.isMinPenetrationFaceNormalPolyhedron1 <;> simp [hp]
  · refine ⟨rfl, ?_, Or.inl rfl, Or.inr ⟨rfl, rfl⟩, by simp⟩
    intro cp hcp
    simp only [List.mem_singleton] at hcp
    subst hcp
    rfl

theorem polyTemporal_adopt (sq : Decimal → Decimal) (p1 p2 : ConvexPolyhedronShape)
    (t12 t21 : Transform) (lf : LastFrameCollisionInfo) (st : PolyScanState)
    (h : polyTemporal sq p1 p2 t12 t21 lf = .adopt st) :
    0 < st.minPenetrationDepth ∧
    ((st.minSeparatingEdge1Index = lf.satMinEdge1Index ∧
      st.minSeparatingEdge2Index = lf.satMinEdge2Index) ∨
     (st.minSeparatingEdge1Index = 0 ∧ st.minSeparatingEdge2Index = 0)) := by
  simp only [polyTemporal] at h
  split_ifs at h with h1 h2 h3 h4 h5 h6 h7 h8 h9 h10
  all_goals simp_all
  · subst h
    exact ⟨h4, Or.inr ⟨rfl, rfl⟩⟩
  · subst h
    exact ⟨h7, Or.inr ⟨rfl, rfl⟩⟩
  · subst h
    exact ⟨h9, Or.inl ⟨rfl, rfl⟩⟩

theorem polyEdgeInner_ok (sq : Decimal → Decimal) (p1 p2 : ConvexPolyhedronShape)
    (t12 : Transform) (i : Nat) (e1 : HEdge) (a b d : Vector3) :
    ∀ (js : List Nat) (st st' : PolyScanState),
    polyEdgeInner sq p1 p2 t12 i e1 a b d js st = .ok st' →
    (∀ j ∈ js, j % 2 = 0) → i % 2 = 0 →
    (0 < st.minPenetrationDepth → 0 < st'.minPenetrationDepth) ∧
    (st.minSeparatingEdge1Index % 2 = 0 → st'.minSeparatingEdge1Index % 2 = 0) ∧
    (st.minSeparatingEdge2Index % 2 = 0 → st'.minSeparatingEdge2Index % 2 = 0) := by
  intro js
  induction js with
  | nil =>
    intro st st' heq _ _
    simp only [polyEdgeInner, Except.ok.injEq] at heq
    subst heq
    exact ⟨id, id, id⟩
  | cons j rest ih =>
    intro st st' heq hl hi
    simp only [polyEdgeInner] at heq
    split_ifs at heq with h1 h2 h3
    · obtain ⟨hp, he1, he2⟩ := ih _ _ heq (fun y hy => hl y (List.mem_cons_of_mem _ hy)) hi
      exact ⟨fun _ => hp (lt_of_not_le h2), fun _ => he1 hi,
        fun _ => he2 (hl j (List.mem_cons_self _ _))⟩
    · exact ih _ _ heq (fun y hy => hl y (List.mem_cons_of_mem _ hy)) hi
    · exact ih _ _ heq (fun y hy => hl y (List.mem_cons_of_mem _ hy)) hi

theorem polyEdgeInner_err (sq : Decimal → Decimal) (p1 p2 : ConvexPolyhedronShape)
    (t12 : Transform) (i : Nat) (e1 : HEdge) (a b d : Vector3) :
    ∀ (js : List Nat) (st : PolyScanState) (x : PolyEarly),
    polyEdgeInner sq p1 p2 t12 i e1 a b d js st = .error x →
    (∀ j ∈ js, j % 2 = 0) → ∃ j, x = .edgeSep i j ∧ j % 2 = 0 := by
  intro js
  induction js with
  | nil =>
    intro st x heq _
    simp only [polyEdgeInner] at heq
    exact Except.noConfusion heq
  | cons j rest ih =>
    intro st x heq hl
    simp only [polyEdgeInner] at heq
    split_ifs at heq with h1 h2 h3
    · simp only [Except.error.injEq] at heq
      exact ⟨j, heq.symm, hl j (List.mem_cons_self _ _)⟩
    · exact ih _ _ heq (fun y hy => hl y (List.mem_cons_of_mem _ hy))
    · exact ih _ _ heq (fun y hy => hl y (List.mem_cons_of_mem _ hy))
    · exact ih _ _ heq (fun y hy => hl y (List.mem_cons_of_mem _ hy))

theorem polyEdgeOuter_ok (sq : Decimal → Decimal) (p1 p2 : ConvexPolyhedronShape)
    (t12 : Transform) : ∀ (is : List Nat) (st st' : PolyScanState),
    polyEdgeOuter sq p1 p2 t12 is st = .ok st' →
    (∀ i ∈ is, i % 2 = 0) →
    (0 < st.minPenetrationDepth → 0 < st'.minPenetrationDepth) ∧
    (st.minSeparatingEdge1Index % 2 = 0 → st'.minSeparatingEdge1Index % 2 = 0) ∧
    (st.minSeparatingEdge2Index % 2 = 0 → st'.minSeparatingEdge2Index % 2 = 0) := by
  intro is
  induction is with
  | nil =>
    intro st st' heq _
    simp only [polyEdgeOuter, Except.ok.injEq] at heq
    subst heq
    exact ⟨id, id, id⟩
  | cons i rest ih =>
    intro st st' heq hl
    simp only [polyEdgeOuter] at heq
    cases hinner : polyEdgeInner sq p1 p2 t12 i (p1.getHalfEdge i)
        (t12.applyV (p1.getVertexPosition (p1.getHalfEdge i).vertexIndex))
        (t12.applyV (p1.getVertexPosition
          (p1.getHalfEdge (p1.getHalfEdge i).nextEdgeIndex).vertexIndex))
        (t12.applyV (p1.getVertexPosition
          (p1.getHalfEdge (p1.getHalfEdge i).nextEdgeIndex).vertexIndex) -
          t12.applyV (p1.getVertexPosition (p1.getHalfEdge i).vertexIndex))
        (evenRange p2.getNbHalfEdges) st with
    | error x => rw [hinner] at heq; exact Except.noConfusion heq
    | ok st2 =>
      rw [hinner] at heq
      obtain ⟨hp, he1, he2⟩ := polyEdgeInner_ok sq p1 p2 t12 i _ _ _ _ _ _ _ hinner
        (fun y hy => evenRange_mod hy) (hl i (List.mem_cons_self _ _))
      obtain ⟨hp', he1', he2'⟩ := ih _ _ heq (fun y hy => hl y (List.mem_cons_of_mem _ hy))
      exact ⟨fun h => hp' (hp h), fun h => he1' (he1 h), fun h => he2' (he2 h)⟩

theorem polyEdgeOuter_err (sq : Decimal → Decimal) (p1 p2 : ConvexPolyhedronShape)
    (t12 : Transform) : ∀ (is : List Nat) (st : PolyScanState) (x : PolyEarly),
    polyEdgeOuter sq p1 p2 t12 is st = .error x →
    (∀ i ∈ is, i % 2 = 0) → ∃ i j, x = .edgeSep i j ∧ i % 2 = 0 ∧ j % 2 = 0 := by
  intro is
  induction is with
  | nil =>
    intro st x heq _
    simp only [polyEdgeOuter] at heq
    exact Except.noConfusion heq
  | cons i rest ih =>
    intro st x heq hl
    simp only [polyEdgeOuter] at heq
    cases hinner : polyEdgeInner sq p1 p2 t12 i (p1.getHalfEdge i)
        (t12.applyV (p1.getVertexPosition (p1.getHalfEdge i).vertexIndex))
        (t12.applyV (p1.getVertexPosition
          (p1.getHalfEdge (p1.getHalfEdge i).nextEdgeIndex).vertexIndex))
        (t12.applyV (p1.getVertexPosition
          (p1.getHalfEdge (p1.getHalfEdge i).nextEdgeIndex).vertexIndex) -
          t12.applyV (p1.getVertexPosition (p1.getHalfEdge i).vertexIndex))
        (evenRange p2.getNbHalfEdges) st with
    | error y =>
      rw [hinner] at heq
      simp only [Except.error.injEq] at heq
      subst heq
      obtain ⟨j, rfl, hj⟩ := polyEdgeInner_err sq p1 p2 t12 i _ _ _ _ _ _ _ hinner
        (fun z hz => evenRange_mod hz)
      exact ⟨i, j, rfl, hl i (List.mem_cons_self _ _), hj⟩
    | ok st2 =>
      rw [hinner] at heq
      exact ih _ _ heq (fun y hy => hl y (List.mem_cons_of_mem _ hy))

theorem polyEdgeInner_noop (sq : Decimal → Decimal) (p1 p2 : ConvexPolyhedronShape)
    (t12 : Transform) (i : Nat) (e1 : HEdge) (a b d : Vector3) :
    ∀ (js : List Nat) (st : PolyScanState),
    (∀ j ∈ js, ¬ testEdgesBuildMinkowskiFace p1 e1 p2 (p2.getHalfEdge j) t12) →
    polyEdgeInner sq p1 p2 t12 i e1 a b d js st = .ok st := by
  intro js
  induction js with
  | nil => intro st _; rfl
  | cons j rest ih =>
    intro st hg
    simp only [polyEdgeInner]
    rw [if_neg (hg j (List.mem_cons_self _ _))]
    exact ih st (fun y hy => hg y (List.mem_cons_of_mem _ hy))

theorem polyEdgeOuter_noop (sq : Decimal → Decimal) (p1 p2 : ConvexPolyhedronShape)
    (t12 : Transform) : ∀ (is : List Nat) (st : PolyScanState),
    (∀ i ∈ is, ∀ j ∈ evenRange p2.getNbHalfEdges,
      ¬ testEdgesBuildMinkowskiFace p1 (p1.getHalfEdge i) p2 (p2.getHalfEdge j) t12) →
    polyEdgeOuter sq p1 p2 t12 is st = .ok st := by
  intro is
  induction is with
  | nil => intro st _; rfl
  | cons i rest ih =>
    intro st hg
    simp only [polyEdgeOuter]
    rw [polyEdgeInner_noop sq p1 p2 t12 i _ _ _ _ _ st
      (fun j hj => hg i (List.mem_cons_self _ _) j hj)]
    exact ih st (fun y hy => hg y (List.mem_cons_of_mem _ hy))

theorem polyFullScan_ok (sq : Decimal → Decimal) (p1 p2 : ConvexPolyhedronShape)
    (t12 t21 : Transform) (st0 st' : PolyScanState)
    (heq : polyFullScan sq p1 p2 t12 t21 st0 = .ok st') :
    (0 < st0.minPenetrationDepth → 0 < st'.minPenetrationDepth) ∧
    (st0.minSeparatingEdge1Index % 2 = 0 → st'.minSeparatingEdge1Index % 2 = 0) ∧
    (st0.minSeparatingEdge2Index % 2 = 0 → st'.minSeparatingEdge2Index % 2 = 0) := by
  simp only [polyFullScan] at heq
  split_ifs at heq with h1 h2 h3 h4
  all_goals (
    obtain ⟨hp, he1, he2⟩ := polyEdgeOuter_ok sq p1 p2 t12 _ _ _ heq
      (fun y hy => evenRange_mod hy))
  all_goals refine ⟨fun h0 => hp ?_, he1, he2⟩
  all_goals first
    | exact lt_of_not_le h4
    | exact lt_of_not_le h3
    | exact lt_of_not_le h2
    | exact lt_of_not_le h1
    | exact h0

theorem polyFullScan_err (sq : Decimal → Decimal) (p1 p2 : ConvexPolyhedronShape)
    (t12 t21 : Transform) (st0 : PolyScanState) (i j : Nat)
    (heq : polyFullScan sq p1 p2 t12 t21 st0 = .error (.edgeSep i j)) :
    i % 2 = 0 ∧ j % 2 = 0 := by
  simp only [polyFullScan] at heq
  split_ifs at heq with h1 h2 h3 h4
  all_goals first
    | (simp only [Except.error.injEq] at heq; exact PolyEarly.noConfusion heq)
    | (obtain ⟨i', j', hx, hi, hj⟩ := polyEdgeOuter_err sq p1 p2 t12 _ _ _ heq
        (fun y hy => evenRange_mod hy)
       obtain ⟨rfl, rfl⟩ : i' = i ∧ j' = j := by
         cases hx
         exact ⟨rfl, rfl⟩
       exact ⟨hi, hj⟩)

theorem polyCore_shape (sq : Decimal → Decimal) (p1 p2 : ConvexPolyhedronShape)
    (t12 t21 s1 s2 : Transform) (lf : LastFrameCollisionInfo) :
    ((polyCore sq p1 p2 t12 t21 s1 s2 lf).collide = false →
      (polyCore sq p1 p2 t12 t21 s1 s2 lf).contacts = []) ∧
    ((polyCore sq p1 p2 t12 t21 s1 s2 lf).writes = [] ↔
      polyTemporal sq p1 p2 t12 t21 lf = .exitNoCollision) ∧
    (∀ cp ∈ (polyCore sq p1 p2 t12 t21 s1 s2 lf).contacts, 0 < cp.penetrationDepth) ∧
    ((lf.satIsAxisFacePolyhedron1 = false ∨ lf.satIsAxisFacePolyhedron2 = false) →
      ((polyCore sq p1 p2 t12 t21 s1 s2 lf).lastFrame.satIsAxisFacePolyhedron1 = false ∨
       (polyCore sq p1 p2 t12 t21 s1 s2 lf).lastFrame.satIsAxisFacePolyhedron2 = false)) ∧
    (lf.satMinEdge1Index % 2 = 0 → lf.satMinEdge2Index % 2 = 0 →
      ((polyCore sq p1 p2 t12 t21 s1 s2 lf).lastFrame.satMinEdge1Index % 2 = 0 ∧
       (polyCore sq p1 p2 t12 t21 s1 s2 lf).lastFrame.satMinEdge2Index % 2 = 0)) := by
  unfold polyCore
  cases htc : polyTemporal sq p1 p2 t12 t21 lf with
  | exitNoCollision =>
    exact ⟨fun _ => rfl, by simp, by simp, id, fun h1 h2 => ⟨h1, h2⟩⟩
  | adopt st =>
    dsimp only
    obtain ⟨hpos, hedge⟩ := polyTemporal_adopt sq p1 p2 t12 t21 lf st htc
    obtain ⟨h1, h2, h3, h4, h5⟩ := polyContactPhase_shape p1 p2 t12 t21 s1 s2 lf st
    refine ⟨?_, iff_of_false h5 (by simp), ?_, fun _ => h3, ?_⟩
    · intro hc
      rw [h1] at hc
      exact Bool.noConfusion hc
    · intro cp hcp
      rw [h2 cp hcp]
      exact hpos
    · intro he1 he2
      rcases h4 with ⟨ha, hb⟩ | ⟨ha, hb⟩
      · rw [ha, hb]; exact ⟨he1, he2⟩
      · rw [ha, hb]
        rcases hedge with ⟨hc, hd⟩ | ⟨hc, hd⟩
        · rw [hc, hd]; exact ⟨he1, he2⟩
        · rw [hc, hd]; exact ⟨rfl, rfl⟩
  | scan =>
    dsimp only
    cases hsc : polyFullScan sq p1 p2 t12 t21 initPolyScanState with
    | error x =>
      cases x with
      | face1Sep f => exact ⟨fun _ => rfl, by simp, by simp, fun _ => Or.inr rfl,
          fun h1 h2 => ⟨h1, h2⟩⟩
      | face2Sep f => exact ⟨fun _ => rfl, by simp, by simp, fun _ => Or.inl rfl,
          fun h1 h2 => ⟨h1, h2⟩⟩
      | edgeSep i j =>
        obtain ⟨hi, hj⟩ := polyFullScan_err sq p1 p2 t12 t21 _ i j hsc
        exact ⟨fun _ => rfl, by simp, by simp, fun _ => Or.inl rfl, fun _ _ => ⟨hi, hj⟩⟩
    | ok st =>
      dsimp only
      obtain ⟨hp, he1, he2⟩ := polyFullScan_ok sq p1 p2 t12 t21 _ _ hsc
      obtain ⟨h1, h2, h3, h4, h5⟩ := polyContactPhase_shape p1 p2 t12 t21 s1 s2 lf st
      have hstpos : 0 < st.minPenetrationDepth := by
        apply hp
        norm_num [initPolyScanState, DECIMAL_LARGEST]
      refine ⟨?_, iff_of_false h5 (by simp), ?_, fun _ => h3, ?_⟩
      · intro hc
        rw [h1] at hc
        exact Bool.noConfusion hc
      · intro cp hcp
        rw [h2 cp hcp]
        exact hstpos
      · intro ha hb
        rcases h4 with ⟨hc, hd⟩ | ⟨hc, hd⟩
        · rw [hc, hd]; exact ⟨ha, hb⟩
        · rw [hc, hd]
          exact ⟨he1 rfl, he2 rfl⟩

/-- An invalid last-frame record sends the polyhedron preamble to the full
scan. -/
theorem polyTemporal_invalid (sq : Decimal → Decimal) (p1 p2 : ConvexPolyhedronShape)
    (t12 t21 : Transform) (lf : LastFrameCollisionInfo) (h : lf.isValid = false) :
    polyTemporal sq p1 p2 t12 t21 lf = .scan := by
  simp only [polyTemporal]
  split_ifs with h1 h2 <;> simp_all

/-- On a face-normal winner the contact phase collides and records the face
flags and index from the scan state. -/
theorem polyContactPhase_face (p1 p2 : ConvexPolyhedronShape) (t12 t21 s1 s2 : Transform)
    (lf : LastFrameCollisionInfo) (st : PolyScanState)
    (h : st.isMinPenetrationFaceNormal = true) :
    (polyContactPhase p1 p2 t12 t21 s1 s2 lf st).collide = true ∧
    (polyContactPhase p1 p2 t12 t21 s1 s2 lf st).lastFrame.satIsAxisFacePolyhedron1 =
      st.isMinPenetrationFaceNormalPolyhedron1 ∧
    (polyContactPhase p1 p2 t12 t21 s1 s2 lf st).lastFrame.satIsAxisFacePolyhedron2 =
      !st.isMinPenetrationFaceNormalPolyhedron1 ∧
    (polyContactPhase p1 p2 t12 t21 s1 s2 lf st).lastFrame.satMinAxisFaceIndex =
      st.minFaceIndex := by
  unfold polyContactPhase
  rw [if_pos h]
  exact ⟨rfl, rfl, rfl, rfl⟩

/-- When both face probes are positive, the first beats the biased sentinel
seed, and no edge pair passes the Gauss-map test, the full scan ends on a
face-normal winner decided by the biased comparison between the two face
directions. -/
theorem polyFullScan_faces (sq : Decimal → Decimal) (p1 p2 : ConvexPolyhedronShape)
    (t12 t21 : Transform)
    (hpos1 : 0 < (testFacesDirectionPolyhedronVsPolyhedron p1 p2 t12).1)
    (hseed : (testFacesDirectionPolyhedronVsPolyhedron p1 p2 t12).1 <
      DECIMAL_LARGEST - SAME_SEPARATING_AXIS_BIAS)
    (hpos2 : 0 < (testFacesDirectionPolyhedronVsPolyhedron p2 p1 t21).1)
    (hgauss : ∀ i ∈ evenRange p1.getNbHalfEdges, ∀ j ∈ evenRange p2.getNbHalfEdges,
      ¬ testEdgesBuildMinkowskiFace p1 (p1.getHalfEdge i) p2 (p2.getHalfEdge j) t12) :
    ∃ st, polyFullScan sq p1 p2 t12 t21 initPolyScanState = .ok st ∧
      st.isMinPenetrationFaceNormal = true ∧
      st.isMinPenetrationFaceNormalPolyhedron1 =
        !decide ((testFacesDirectionPolyhedronVsPolyhedron p2 p1 t21).1 <
          (testFacesDirectionPolyhedronVsPolyhedron p1 p2 t12).1 -
            SAME_SEPARATING_AXIS_BIAS) ∧
      st.minFaceIndex =
        (if (testFacesDirectionPolyhedronVsPolyhedron p2 p1 t21).1 <
            (testFacesDirectionPolyhedronVsPolyhedron p1 p2 t12).1 -
              SAME_SEPARATING_AXIS_BIAS
         then (testFacesDirectionPolyhedronVsPolyhedron p2 p1 t21).2
         else (testFacesDirectionPolyhedronVsPolyhedron p1 p2 t12).2) := by
  unfold polyFullScan
  rw [if_neg (not_le.mpr hpos1), if_pos (show
    (testFacesDirectionPolyhedronVsPolyhedron p1 p2 t12).1 <
      initPolyScanState.minPenetrationDepth - SAME_SEPARATING_AXIS_BIAS from hseed),
    if_neg (not_le.mpr hpos2)]
  by_cases hb : (testFacesDirectionPolyhedronVsPolyhedron p2 p1 t21).1 <
      (testFacesDirectionPolyhedronVsPolyhedron p1 p2 t12).1 - SAME_SEPARATING_AXIS_BIAS
  · rw [if_pos hb, polyEdgeOuter_noop sq p1 p2 t12 _ _ hgauss]
    exact ⟨_, rfl, rfl, by simp [hb], by simp [hb]⟩
  · rw [if_neg hb, polyEdgeOuter_noop sq p1 p2 t12 _ _ hgauss]
    exact ⟨_, rfl, rfl, by simp [hb], by simp [hb]⟩

unseal Rat.add Rat.mul Rat.inv Rat.sub in
/-- C1 (counterexample): on two well-formed overlapping unit cubes,
`testCollisionConvexPolyhedronVsConvexPolyhedron` returns `true` while zero
contact points were appended to the manifold builder — the face-contact
filter discarded every clipped vertex. -/
theorem C1_counterexample :
    (testCollisionConvexPolyhedronVsConvexPolyhedron ratSqrt cubePairInput).collide = true ∧
    (testCollisionConvexPolyhedronVsConvexPolyhedron ratSqrt cubePairInput).contacts = [] := by
  decide

unseal Rat.add Rat.mul Rat.inv Rat.sub in
/-- C2 (code divergence): on the overlapping unit cubes the winning reference
face is face 0 of polyhedron 1, whose `edgeIndex` is 0; the source filters the
clipped vertices against `getVertexPosition(firstEdgeIndex)` — a *half-edge*
index used as a vertex index, yielding vertex 0 = `(-1,-1,-1)`, which is not a
vertex of the reference face (face 0's vertices are `[1,2,6,5]`).  All four
clipped vertices are strictly below the true reference face plane (through the
face's own vertex, as the claim and §4.7 require), yet the call emits zero
contacts. -/
theorem C2_code_divergence :
    (testCollisionConvexPolyhedronVsConvexPolyhedron ratSqrt cubePairInput).collide = true ∧
    (testCollisionConvexPolyhedronVsConvexPolyhedron ratSqrt cubePairInput).contacts = [] ∧
    (polyClippedVertices cube1 cube1 cubePairT12 cubePairT12.getInverse 0).length = 4 ∧
    (∀ p ∈ polyClippedVertices cube1 cube1 cubePairT12 cubePairT12.getInverse 0,
      (p - cube1.getVertexPosition
          ((cube1.getHalfEdge (cube1.getFace 0).edgeIndex).vertexIndex)).dot
        (cube1.getFaceNormal 0) < 0) ∧
    (cube1.getFace 0).edgeIndex ∉ (cube1.getFace 0).faceVertices := by
  decide

unseal Rat.add Rat.mul Rat.inv Rat.sub in
/-- C3 (counterexample): a sphere call that exits through the
temporal-coherence path with the cached axis still separating performs no
write at all to the last-frame record and returns it unchanged. -/
theorem C3_counterexample :
    (testCollisionSphereVsConvexPolyhedron sphereFarInput).writes = [] ∧
    (testCollisionSphereVsConvexPolyhedron sphereFarInput).lastFrame =
      sphereFarInput.lastFrameInfo ∧
    (testCollisionSphereVsConvexPolyhedron sphereFarInput).collide = false := by
  decide

unseal Rat.add Rat.mul Rat.inv Rat.sub in
/-- C4 (counterexample): with a Triangle polyhedron the sphere driver still
writes `satMinAxisFaceIndex` on the collision path: the cached index 7 is
overwritten with the winning face 0. -/
theorem C4_counterexample :
    (sphereInputParts sphereTriangleInput).2.2.1.getType = CollisionShapeType.TRIANGLE ∧
    (testCollisionSphereVsConvexPolyhedron sphereTriangleInput).collide = true ∧
    (testCollisionSphereVsConvexPolyhedron sphereTriangleInput).lastFrame.satMinAxisFaceIndex
      = 0 ∧
    sphereTriangleInput.lastFrameInfo.satMinAxisFaceIndex = 7 := by
  decide

unseal Rat.add Rat.mul Rat.inv Rat.sub in
/-- C5 (counterexample): the biased comparison is applied even when the
incumbent is the `DECIMAL_LARGEST` seed.  On two coincident huge cubes every
face probe returns the positive depth `DECIMAL_LARGEST −
SAME_SEPARATING_AXIS_BIAS`, which fails `d < DECIMAL_LARGEST −
SAME_SEPARATING_AXIS_BIAS` and therefore never replaces the sentinel: the
call emits a contact with depth `DECIMAL_LARGEST` through the edge-edge
branch instead of adopting the positive face candidate, so a candidate axis
with positive penetration depth was refused at the seeding comparison. -/
theorem C5_counterexample :
    0 < (testFacesDirectionPolyhedronVsPolyhedron (cubeShape bigHalfExtent)
      (cubeShape bigHalfExtent) Transform.identity).1 ∧
    (testFacesDirectionPolyhedronVsPolyhedron (cubeShape bigHalfExtent)
      (cubeShape bigHalfExtent) Transform.identity).1 =
      DECIMAL_LARGEST - SAME_SEPARATING_AXIS_BIAS ∧
    (testCollisionConvexPolyhedronVsConvexPolyhedron ratSqrt coincidentBigCubesInput).collide
      = true ∧
    (testCollisionConvexPolyhedronVsConvexPolyhedron ratSqrt
      coincidentBigCubesInput).contacts.map (fun c => c.penetrationDepth) = [DECIMAL_LARGEST] ∧
    (testCollisionConvexPolyhedronVsConvexPolyhedron ratSqrt
      coincidentBigCubesInput).lastFrame.satIsAxisFacePolyhedron1 = false ∧
    (testCollisionConvexPolyhedronVsConvexPolyhedron ratSqrt
      coincidentBigCubesInput).lastFrame.satIsAxisFacePolyhedron2 = false := by
  decide

unseal Rat.add Rat.mul Rat.inv Rat.sub in
/-- C8 (counterexample): starting from a record with only
`satIsAxisFacePolyhedron2` set (at most one flag true), a capsule call that
wins on a face normal writes `satIsAxisFacePolyhedron1 := true` and never
touches `satIsAxisFacePolyhedron2`, leaving both flags true. -/
theorem C8_counterexample :
    (capsuleFlag2Input.lastFrameInfo.satIsAxisFacePolyhedron1 = false ∨
      capsuleFlag2Input.lastFrameInfo.satIsAxisFacePolyhedron2 = false) ∧
    (testCollisionCapsuleVsConvexPolyhedron ratSqrt
      capsuleFlag2Input).lastFrame.satIsAxisFacePolyhedron1 = true ∧
    (testCollisionCapsuleVsConvexPolyhedron ratSqrt
      capsuleFlag2Input).lastFrame.satIsAxisFacePolyhedron2 = true := by
  decide

unseal Rat.add Rat.mul Rat.inv Rat.sub in
/-- C6 (code divergence): on this edge pair and transform the three sign
conditions of the claim hold (with the adjacent-face normals of edge 1
*rotated* into polyhedron 2's frame), yet `testEdgesBuildMinkowskiFace`
rejects the pair, because the source transforms those normals with the full
`polyhedron1ToPolyhedron2` transform — rotation *and* translation — before
the test (`SATAlgorithm.cpp` lines 1009–1010), unlike the edge direction on
line 1018. -/
theorem C6_code_divergence :
    ¬ testEdgesBuildMinkowskiFace edgePoly1 (edgePoly1.getHalfEdge 0) edgePoly2
        (edgePoly2.getHalfEdge 0) translate10 ∧
    edgesBuildMinkowskiFaceClaim edgePoly1 (edgePoly1.getHalfEdge 0) edgePoly2
        (edgePoly2.getHalfEdge 0) translate10 ∧
    translate10.rot = Rot3.id := by
  refine ⟨by decide, by decide, rfl⟩

/-- C1 (amended): the sphere and capsule operations return `true` iff at
least one contact point was appended; the polyhedron operation only
guarantees the forward direction — `false` implies no contacts — since it
can return `true` with zero contacts. -/
theorem C1_amended (sq : Decimal → Decimal) (info : NarrowPhaseInfo) :
    ((testCollisionSphereVsConvexPolyhedron info).collide = true ↔
      (testCollisionSphereVsConvexPolyhedron info).contacts ≠ []) ∧
    ((testCollisionCapsuleVsConvexPolyhedron sq info).collide = true ↔
      (testCollisionCapsuleVsConvexPolyhedron sq info).contacts ≠ []) ∧
    ((testCollisionConvexPolyhedronVsConvexPolyhedron sq info).collide = false →
      (testCollisionConvexPolyhedronVsConvexPolyhedron sq info).contacts = []) :=
  ⟨(sphereCore_shape _ _ _ _ _ _ _).1, (capsuleCore_shape _ _ _ _ _ _ _).1,
   (polyCore_shape _ _ _ _ _ _ _ _).1⟩

/-- C3 (amended): each of the three operations performs no write at all to
the last-frame record exactly when it exits through the temporal-coherence
path with the cached axis still separating; every other path writes at least
one field. -/
theorem C3_amended (sq : Decimal → Decimal) (info : NarrowPhaseInfo) :
    ((testCollisionSphereVsConvexPolyhedron info).writes = [] ↔ sphereTemporalSepExit info) ∧
    ((testCollisionCapsuleVsConvexPolyhedron sq info).writes = [] ↔
      capsuleTemporalSepExit sq info) ∧
    ((testCollisionConvexPolyhedronVsConvexPolyhedron sq info).writes = [] ↔
      polyTemporalSepExit sq info) :=
  ⟨(sphereCore_shape _ _ _ _ _ _ _).2.1, (capsuleCore_shape _ _ _ _ _ _ _).2.1,
   (polyCore_shape _ _ _ _ _ _ _ _).2.1⟩

/-- C4 (amended): with a Triangle polyhedron the sphere call skips the
temporal-coherence preamble and always performs at least one write; the only
field it ever writes is `satMinAxisFaceIndex` — every other last-frame field
is left unchanged. -/
theorem C4_amended (info : NarrowPhaseInfo)
    (h : (sphereInputParts info).2.2.1.getType = CollisionShapeType.TRIANGLE) :
    (testCollisionSphereVsConvexPolyhedron info).writes ≠ [] ∧
    (∀ w ∈ (testCollisionSphereVsConvexPolyhedron info).writes, w = LFW.wFaceIndex) ∧
    ∃ k, (testCollisionSphereVsConvexPolyhedron info).lastFrame =
      { info.lastFrameInfo with satMinAxisFaceIndex := k } := by
  have hs := sphereCore_shape (sphereInputParts info).1 (sphereInputParts info).2.1
    (sphereInputParts info).2.2.1 (sphereInputParts info).2.2.2.1
    (sphereInputParts info).2.2.2.2.1 (sphereInputParts info).2.2.2.2.2 info.lastFrameInfo
  have htc : sphereTemporal (sphereInputParts info).2.2.1 (sphereInputParts info).2.1
      (sphereInputParts info).2.2.2.2.2 info.lastFrameInfo = .scan := by
    simp [sphereTemporal, h]
  refine ⟨?_, hs.2.2.2.2, hs.2.2.2.1⟩
  intro hw
  have h0 := hs.2.1.mp hw
  rw [htc] at h0
  exact TCOutcome.noConfusion h0

unseal Rat.add Rat.mul Rat.inv Rat.sub in
theorem C4_witness :
    (testCollisionSphereVsConvexPolyhedron sphereTriangleInput).writes ≠ [] ∧
    (∀ w ∈ (testCollisionSphereVsConvexPolyhedron sphereTriangleInput).writes,
      w = LFW.wFaceIndex) ∧
    ∃ k, (testCollisionSphereVsConvexPolyhedron sphereTriangleInput).lastFrame =
      { sphereTriangleInput.lastFrameInfo with satMinAxisFaceIndex := k } :=
  C4_amended sphereTriangleInput (by decide)

/-- C5 (amended): the biased comparison gates every replacement, including
the first one against the `DECIMAL_LARGEST` seed.  On a fresh record, when
both face probes are positive, the first beats the biased sentinel seed and
no edge pair passes the Gauss-map test, the call collides and the winner
between the two face directions is decided by the biased comparison
`d2 < d1 − SAME_SEPARATING_AXIS_BIAS`, recording the corresponding face
flags and face index. -/
theorem C5_amended (sq : Decimal → Decimal) (p1 p2 : ConvexPolyhedronShape)
    (w1 w2 : Transform) (lf : LastFrameCollisionInfo)
    (hval : lf.isValid = false)
    (hpos1 : 0 < (testFacesDirectionPolyhedronVsPolyhedron p1 p2
      (w2.getInverse.comp w1)).1)
    (hseed : (testFacesDirectionPolyhedronVsPolyhedron p1 p2 (w2.getInverse.comp w1)).1 <
      DECIMAL_LARGEST - SAME_SEPARATING_AXIS_BIAS)
    (hpos2 : 0 < (testFacesDirectionPolyhedronVsPolyhedron p2 p1
      (w2.getInverse.comp w1).getInverse).1)
    (hgauss : ∀ i ∈ evenRange p1.getNbHalfEdges, ∀ j ∈ evenRange p2.getNbHalfEdges,
      ¬ testEdgesBuildMinkowskiFace p1 (p1.getHalfEdge i) p2 (p2.getHalfEdge j)
        (w2.getInverse.comp w1)) :
    (testCollisionConvexPolyhedronVsConvexPolyhedron sq
      ⟨.polyS p1, .polyS p2, w1, w2, lf⟩).collide = true ∧
    (testCollisionConvexPolyhedronVsConvexPolyhedron sq
      ⟨.polyS p1, .polyS p2, w1, w2, lf⟩).lastFrame.satIsAxisFacePolyhedron1 =
      !decide ((testFacesDirectionPolyhedronVsPolyhedron p2 p1
          (w2.getInverse.comp w1).getInverse).1 <
        (testFacesDirectionPolyhedronVsPolyhedron p1 p2 (w2.getInverse.comp w1)).1 -
          SAME_SEPARATING_AXIS_BIAS) ∧
    (testCollisionConvexPolyhedronVsConvexPolyhedron sq
      ⟨.polyS p1, .polyS p2, w1, w2, lf⟩).lastFrame.satIsAxisFacePolyhedron2 =
      decide ((testFacesDirectionPolyhedronVsPolyhedron p2 p1
          (w2.getInverse.comp w1).getInverse).1 <
        (testFacesDirectionPolyhedronVsPolyhedron p1 p2 (w2.getInverse.comp w1)).1 -
          SAME_SEPARATING_AXIS_BIAS) ∧
    (testCollisionConvexPolyhedronVsConvexPolyhedron sq
      ⟨.polyS p1, .polyS p2, w1, w2, lf⟩).lastFrame.satMinAxisFaceIndex =
      (if (testFacesDirectionPolyhedronVsPolyhedron p2 p1
            (w2.getInverse.comp w1).getInverse).1 <
          (testFacesDirectionPolyhedronVsPolyhedron p1 p2 (w2.getInverse.comp w1)).1 -
            SAME_SEPARATING_AXIS_BIAS
       then (testFacesDirectionPolyhedronVsPolyhedron p2 p1
         (w2.getInverse.comp w1).getInverse).2
       else (testFacesDirectionPolyhedronVsPolyhedron p1 p2 (w2.getInverse.comp w1)).2) := by
  unfold testCollisionConvexPolyhedronVsConvexPolyhedron
  unfold polyCore
  dsimp only [ShapeV.asPoly]
  rw [polyTemporal_invalid sq p1 p2 _ _ lf hval]
  dsimp only
  obtain ⟨st, hst, hface, hisP1, hidx⟩ := polyFullScan_faces sq p1 p2
    (w2.getInverse.comp w1) (w2.getInverse.comp w1).getInverse hpos1 hseed hpos2 hgauss
  rw [hst]
  dsimp only
  obtain ⟨hc, hf1, hf2, hfi⟩ := polyContactPhase_face p1 p2 (w2.getInverse.comp w1)
    (w2.getInverse.comp w1).getInverse w1 w2 lf st hface
  refine ⟨hc, ?_, ?_, ?_⟩
  · rw [hf1, hisP1]
  · rw [hf2, hisP1, Bool.not_not]
  · rw [hfi, hidx]

unseal Rat.add Rat.mul Rat.inv Rat.sub in
theorem C5_witness :
    (testCollisionConvexPolyhedronVsConvexPolyhedron ratSqrt cubePairInput).collide = true ∧
    (testCollisionConvexPolyhedronVsConvexPolyhedron ratSqrt
      cubePairInput).lastFrame.satIsAxisFacePolyhedron1 =
      !decide ((testFacesDirectionPolyhedronVsPolyhedron cube1 cube1
          cubePairT12.getInverse).1 <
        (testFacesDirectionPolyhedronVsPolyhedron cube1 cube1 cubePairT12).1 -
          SAME_SEPARATING_AXIS_BIAS) ∧
    (testCollisionConvexPolyhedronVsConvexPolyhedron ratSqrt
      cubePairInput).lastFrame.satIsAxisFacePolyhedron2 =
      decide ((testFacesDirectionPolyhedronVsPolyhedron cube1 cube1
          cubePairT12.getInverse).1 <
        (testFacesDirectionPolyhedronVsPolyhedron cube1 cube1 cubePairT12).1 -
          SAME_SEPARATING_AXIS_BIAS) ∧
    (testCollisionConvexPolyhedronVsConvexPolyhedron ratSqrt
      cubePairInput).lastFrame.satMinAxisFaceIndex =
      (if (testFacesDirectionPolyhedronVsPolyhedron cube1 cube1 cubePairT12.getInverse).1 <
          (testFacesDirectionPolyhedronVsPolyhedron cube1 cube1 cubePairT12).1 -
            SAME_SEPARATING_AXIS_BIAS
       then (testFacesDirectionPolyhedronVsPolyhedron cube1 cube1 cubePairT12.getInverse).2
       else (testFacesDirectionPolyhedronVsPolyhedron cube1 cube1 cubePairT12).2) :=
  C5_amended ratSqrt cube1 cube1 Transform.identity ⟨Rot3.id, ⟨1,0,0⟩⟩ lfInvalid
    (by decide) (by decide) (by decide) (by decide) (by decide)

/-- C7: every contact point emitted by any of the three operations carries a
strictly positive penetration depth, on the temporal-coherence path and on
the full-scan path alike. -/
theorem C7_depth_positive (sq : Decimal → Decimal) (info : NarrowPhaseInfo)
    (cp : ContactPoint) :
    (cp ∈ (testCollisionSphereVsConvexPolyhedron info).contacts → 0 < cp.penetrationDepth) ∧
    (cp ∈ (testCollisionCapsuleVsConvexPolyhedron sq info).contacts →
      0 < cp.penetrationDepth) ∧
    (cp ∈ (testCollisionConvexPolyhedronVsConvexPolyhedron sq info).contacts →
      0 < cp.penetrationDepth) :=
  ⟨fun h => (sphereCore_shape _ _ _ _ _ _ _).2.2.1 cp h,
   fun h => (capsuleCore_shape _ _ _ _ _ _ _).2.2.1 cp h,
   fun h => (polyCore_shape _ _ _ _ _ _ _ _).2.2.1 cp h⟩

unseal Rat.add Rat.mul Rat.inv Rat.sub in
theorem C7_witness :
    0 < ((testCollisionSphereVsConvexPolyhedron sphereInCubeInput).contacts.headD
      default).penetrationDepth :=
  (C7_depth_positive ratSqrt sphereInCubeInput
    ((testCollisionSphereVsConvexPolyhedron sphereInCubeInput).contacts.headD default)).1
    (by decide)

/-- C8 (amended): starting from a record with at most one of the two face
flags set, the sphere and polyhedron operations preserve the at-most-one-flag
invariant; the capsule operation preserves it only when
`satIsAxisFacePolyhedron2` is false on entry, since it writes flag 1 without
ever clearing flag 2. -/
theorem C8_amended (sq : Decimal → Decimal) (info : NarrowPhaseInfo)
    (h : info.lastFrameInfo.satIsAxisFacePolyhedron1 = false ∨
      info.lastFrameInfo.satIsAxisFacePolyhedron2 = false) :
    ((testCollisionSphereVsConvexPolyhedron info).lastFrame.satIsAxisFacePolyhedron1 = false ∨
     (testCollisionSphereVsConvexPolyhedron info).lastFrame.satIsAxisFacePolyhedron2 = false) ∧
    ((testCollisionConvexPolyhedronVsConvexPolyhedron sq
        info).lastFrame.satIsAxisFacePolyhedron1 = false ∨
     (testCollisionConvexPolyhedronVsConvexPolyhedron sq
        info).lastFrame.satIsAxisFacePolyhedron2 = false) ∧
    (info.lastFrameInfo.satIsAxisFacePolyhedron2 = false →
      ((testCollisionCapsuleVsConvexPolyhedron sq
          info).lastFrame.satIsAxisFacePolyhedron1 = false ∨
       (testCollisionCapsuleVsConvexPolyhedron sq
          info).lastFrame.satIsAxisFacePolyhedron2 = false)) := by
  refine ⟨?_, (polyCore_shape _ _ _ _ _ _ _ _).2.2.2.1 h, ?_⟩
  · obtain ⟨k, hk⟩ := (sphereCore_shape (sphereInputParts info).1 (sphereInputParts info).2.1
      (sphereInputParts info).2.2.1 (sphereInputParts info).2.2.2.1
      (sphereInputParts info).2.2.2.2.1 (sphereInputParts info).2.2.2.2.2
      info.lastFrameInfo).2.2.2.1
    rw [show (testCollisionSphereVsConvexPolyhedron info).lastFrame =
      { info.lastFrameInfo with satMinAxisFaceIndex := k } from hk]
    exact h
  · intro h2
    right
    exact ((capsuleCore_shape _ _ _ _ _ _ _).2.2.2.1).trans h2

unseal Rat.add Rat.mul Rat.inv Rat.sub in
theorem C8_witness :
    ((testCollisionSphereVsConvexPolyhedron
        sphereInCubeInput).lastFrame.satIsAxisFacePolyhedron1 = false ∨
     (testCollisionSphereVsConvexPolyhedron
        sphereInCubeInput).lastFrame.satIsAxisFacePolyhedron2 = false) ∧
    ((testCollisionConvexPolyhedronVsConvexPolyhedron ratSqrt
        sphereInCubeInput).lastFrame.satIsAxisFacePolyhedron1 = false ∨
     (testCollisionConvexPolyhedronVsConvexPolyhedron ratSqrt
        sphereInCubeInput).lastFrame.satIsAxisFacePolyhedron2 = false) ∧
    (sphereInCubeInput.lastFrameInfo.satIsAxisFacePolyhedron2 = false →
      ((testCollisionCapsuleVsConvexPolyhedron ratSqrt
          sphereInCubeInput).lastFrame.satIsAxisFacePolyhedron1 = false ∨
       (testCollisionCapsuleVsConvexPolyhedron ratSqrt
          sphereInCubeInput).lastFrame.satIsAxisFacePolyhedron2 = false)) :=
  C8_amended ratSqrt sphereInCubeInput (by decide)

/-- C10: if `satMinEdge1Index` and `satMinEdge2Index` are even on entry they
are still even after any of the three operations: every fresh write of these
fields comes from a loop stepping by 2 from 0 over the half-edges, so the
cached winning edge is always the even member of a twin pair. -/
theorem C10_even_edges (sq : Decimal → Decimal) (info : NarrowPhaseInfo)
    (h1 : info.lastFrameInfo.satMinEdge1Index % 2 = 0)
    (h2 : info.lastFrameInfo.satMinEdge2Index % 2 = 0) :
    ((testCollisionSphereVsConvexPolyhedron info).lastFrame.satMinEdge1Index % 2 = 0 ∧
     (testCollisionSphereVsConvexPolyhedron info).lastFrame.satMinEdge2Index % 2 = 0) ∧
    ((testCollisionCapsuleVsConvexPolyhedron sq info).lastFrame.satMinEdge1Index % 2 = 0 ∧
     (testCollisionCapsuleVsConvexPolyhedron sq info).lastFrame.satMinEdge2Index % 2 = 0) ∧
    ((testCollisionConvexPolyhedronVsConvexPolyhedron sq
        info).lastFrame.satMinEdge1Index % 2 = 0 ∧
     (testCollisionConvexPolyhedronVsConvexPolyhedron sq
        info).lastFrame.satMinEdge2Index % 2 = 0) := by
  refine ⟨?_, ?_, (polyCore_shape _ _ _ _ _ _ _ _).2.2.2.2 h1 h2⟩
  · obtain ⟨k, hk⟩ := (sphereCore_shape (sphereInputParts info).1 (sphereInputParts info).2.1
      (sphereInputParts info).2.2.1 (sphereInputParts info).2.2.2.1
      (sphereInputParts info).2.2.2.2.1 (sphereInputParts info).2.2.2.2.2
      info.lastFrameInfo).2.2.2.1
    rw [show (testCollisionSphereVsConvexPolyhedron info).lastFrame =
      { info.lastFrameInfo with satMinAxisFaceIndex := k } from hk]
    exact ⟨h1, h2⟩
  · constructor
    · exact (capsuleCore_shape _ _ _ _ _ _ _).2.2.2.2.2 h1
    · exact ((capsuleCore_shape _ _ _ _ _ _ _).2.2.2.2.1).symm ▸ h2

unseal Rat.add Rat.mul Rat.inv Rat.sub in
theorem C10_witness :
    ((testCollisionSphereVsConvexPolyhedron capsuleEvenInput).lastFrame.satMinEdge1Index
        % 2 = 0 ∧
     (testCollisionSphereVsConvexPolyhedron capsuleEvenInput).lastFrame.satMinEdge2Index
        % 2 = 0) ∧
    ((testCollisionCapsuleVsConvexPolyhedron ratSqrt
        capsuleEvenInput).lastFrame.satMinEdge1Index % 2 = 0 ∧
     (testCollisionCapsuleVsConvexPolyhedron ratSqrt
        capsuleEvenInput).lastFrame.satMinEdge2Index % 2 = 0) ∧
    ((testCollisionConvexPolyhedronVsConvexPolyhedron ratSqrt
        capsuleEvenInput).lastFrame.satMinEdge1Index % 2 = 0 ∧
     (testCollisionConvexPolyhedronVsConvexPolyhedron ratSqrt
        capsuleEvenInput).lastFrame.satMinEdge2Index % 2 = 0) :=
  C10_even_edges ratSqrt capsuleEvenInput (by decide) (by decide)

end SATSpec
